import Mathlib

/-!
Verification of the omnidotdev/terminal repository against its specification.

The first part embeds the terminal grid engine
(`src/frontends/android-lib/src/terminal.rs`): a cell grid driven by the
VT-parser callbacks `print`, `execute`, `csi_dispatch`, `esc_dispatch`,
`osc_dispatch`.  The second part embeds the web-server session layer
(`src/frontends/web-server/src/session.rs` and `main.rs`).

Machine integers (`usize`, `u16`, `u8`) are modelled as `Nat`; all the
arithmetic on them in the sources is saturating/clamped, which `Nat`
subtraction and `min` mirror exactly.  The `f32` colour channels are
modelled as `ℚ`: every colour the code computes is of the form
`small-integer / small-integer`, and both sides of every colour claim are
the same exact expression, so rationals are a faithful exact model.
-/

namespace Terminal

/-- RGBA colour, mirroring `[f32; 4]` in the source. -/
abbrev Color := ℚ × ℚ × ℚ × ℚ

/-- Terminal cell with character and style attributes (`struct Cell`). -/
structure Cell where
  c : Char
  fg : Color
  bg : Option Color
  bold : Bool
  italic : Bool
  underline : Bool
  inverse : Bool
deriving DecidableEq, Repr

/-- `impl Default for Cell`: blank space, opaque white fg, no bg. -/
def Cell.default : Cell :=
  { c := ' ', fg := (1, 1, 1, 1), bg := none,
    bold := false, italic := false, underline := false, inverse := false }

/-- `enum MouseMode`. -/
inductive MouseMode where
  | none | click | dragMotion | allMotion
deriving DecidableEq, Repr

/-- `const MAX_SCROLLBACK: usize = 1000`. -/
def MAX_SCROLLBACK : Nat := 1000

/-- `struct TerminalGrid`.  `pending_writes` holds ASCII bytes; we model them
as the characters of the formatted string (all are single-byte ASCII). -/
structure TerminalGrid where
  cols : Nat
  rows : Nat
  cells : List (List Cell)
  cursor_row : Nat
  cursor_col : Nat
  dirty : Bool
  scrollback : List (List Cell)
  display_offset : Nat
  cur_fg : Color
  cur_bg : Option Color
  cur_bold : Bool
  cur_italic : Bool
  cur_underline : Bool
  cur_inverse : Bool
  scroll_top : Nat
  scroll_bottom : Nat
  saved_cursor_row : Nat
  saved_cursor_col : Nat
  mouse_click : Bool
  mouse_drag : Bool
  mouse_motion : Bool
  mouse_sgr : Bool
  pending_writes : List Char
deriving DecidableEq, Repr

/-- `TerminalGrid::new(cols, rows)`. -/
def TerminalGrid.new (cols rows : Nat) : TerminalGrid :=
  { cols := cols, rows := rows
    cells := List.replicate rows (List.replicate cols Cell.default)
    cursor_row := 0, cursor_col := 0, dirty := true
    scrollback := [], display_offset := 0
    cur_fg := (1, 1, 1, 1), cur_bg := none
    cur_bold := false, cur_italic := false
    cur_underline := false, cur_inverse := false
    scroll_top := 0, scroll_bottom := rows - 1
    saved_cursor_row := 0, saved_cursor_col := 0
    mouse_click := false, mouse_drag := false
    mouse_motion := false, mouse_sgr := false
    pending_writes := [] }

/-- `TerminalGrid::mouse_mode`. -/
def TerminalGrid.mouse_mode (g : TerminalGrid) : MouseMode :=
  if g.mouse_motion then .allMotion
  else if g.mouse_drag then .dragMotion
  else if g.mouse_click then .click
  else .none

/-- `TerminalGrid::scroll_up`: remove the row at `scroll_top`, push it onto
scrollback when `scroll_top == 0` (evicting the oldest entry past
`MAX_SCROLLBACK`), and insert a blank row at `scroll_bottom`. -/
def TerminalGrid.scroll_up (g : TerminalGrid) : TerminalGrid :=
  let removed := g.cells.getD g.scroll_top []
  let cells :=
    (g.cells.eraseIdx g.scroll_top).insertIdx g.scroll_bottom
      (List.replicate g.cols Cell.default)
  let scrollback :=
    if g.scroll_top = 0 then
      let sb := g.scrollback ++ [removed]
      if MAX_SCROLLBACK < sb.length then sb.eraseIdx 0 else sb
    else g.scrollback
  { g with cells := cells, scrollback := scrollback, dirty := true }

/-- `TerminalGrid::scroll_down`. -/
def TerminalGrid.scroll_down (g : TerminalGrid) : TerminalGrid :=
  { g with
    cells := (g.cells.eraseIdx g.scroll_bottom).insertIdx g.scroll_top
      (List.replicate g.cols Cell.default)
    dirty := true }

/-- `TerminalGrid::new_cell`. -/
def TerminalGrid.new_cell (g : TerminalGrid) (c : Char) : Cell :=
  { c := c, fg := g.cur_fg, bg := g.cur_bg, bold := g.cur_bold,
    italic := g.cur_italic, underline := g.cur_underline,
    inverse := g.cur_inverse }

/-- `TerminalGrid::clear_row`. -/
def TerminalGrid.clear_row (g : TerminalGrid) (row : Nat) : TerminalGrid :=
  if row < g.rows then
    { g with cells := g.cells.set row (List.replicate g.cols Cell.default) }
  else g

/-- Set the cells of `row` at indices `lo, lo+1, …, lo+len-1` to blank,
modelling `for col in lo..lo+len { row[col] = Cell::default() }`. -/
def clearRange (row : List Cell) (lo len : Nat) : List Cell :=
  (List.range' lo len).foldl (fun r k => r.set k Cell.default) row

/-- `TerminalGrid::erase_in_display`. -/
def TerminalGrid.erase_in_display (g : TerminalGrid) (mode : Nat) : TerminalGrid :=
  let g1 :=
    if mode = 0 then
      let g2 := { g with
        cells := g.cells.set g.cursor_row
          (clearRange (g.cells.getD g.cursor_row []) g.cursor_col
            (g.cols - g.cursor_col)) }
      (List.range' (g.cursor_row + 1) (g.rows - (g.cursor_row + 1))).foldl
        (fun h r => h.clear_row r) g2
    else if mode = 1 then
      let g2 := (List.range g.cursor_row).foldl (fun h r => h.clear_row r) g
      { g2 with
        cells := g2.cells.set g.cursor_row
          (clearRange (g2.cells.getD g.cursor_row []) 0
            (min g.cursor_col (g.cols - 1) + 1)) }
    else if mode = 2 ∨ mode = 3 then
      (List.range g.rows).foldl (fun h r => h.clear_row r) g
    else g
  { g1 with dirty := true }

/-- `TerminalGrid::erase_in_line`. -/
def TerminalGrid.erase_in_line (g : TerminalGrid) (mode : Nat) : TerminalGrid :=
  let g1 :=
    if mode = 0 then
      { g with
        cells := g.cells.set g.cursor_row
          (clearRange (g.cells.getD g.cursor_row []) g.cursor_col
            (g.cols - g.cursor_col)) }
    else if mode = 1 then
      { g with
        cells := g.cells.set g.cursor_row
          (clearRange (g.cells.getD g.cursor_row []) 0
            (min g.cursor_col (g.cols - 1) + 1)) }
    else if mode = 2 then
      g.clear_row g.cursor_row
    else g
  { g1 with dirty := true }

/-- `fn ansi_color(idx: u16)`: the standard 256-colour palette. -/
def ansi_color (idx : Nat) : Color :=
  if idx = 0 then (0, 0, 0, 1)
  else if idx = 1 then (0.8, 0, 0, 1)
  else if idx = 2 then (0, 0.8, 0, 1)
  else if idx = 3 then (0.8, 0.8, 0, 1)
  else if idx = 4 then (0, 0, 0.8, 1)
  else if idx = 5 then (0.8, 0, 0.8, 1)
  else if idx = 6 then (0, 0.8, 0.8, 1)
  else if idx = 7 then (0.75, 0.75, 0.75, 1)
  else if idx = 8 then (0.5, 0.5, 0.5, 1)
  else if idx = 9 then (1, 0, 0, 1)
  else if idx = 10 then (0, 1, 0, 1)
  else if idx = 11 then (1, 1, 0, 1)
  else if idx = 12 then (0, 0, 1, 1)
  else if idx = 13 then (1, 0, 1, 1)
  else if idx = 14 then (0, 1, 1, 1)
  else if idx = 15 then (1, 1, 1, 1)
  else if idx ≤ 231 then
    let j := idx - 16
    (((j / 36 : Nat) : ℚ) / 5, (((j % 36) / 6 : Nat) : ℚ) / 5,
      ((j % 6 : Nat) : ℚ) / 5, 1)
  else if idx ≤ 255 then
    let level : ℚ := ((idx - 232 : Nat) : ℚ) / 23
    (level, level, level, 1)
  else (1, 1, 1, 1)

/-- The current text attributes of the grid — exactly the six `cur_*`
fields, the only state `handle_sgr`/`reset_attributes` touch. -/
structure Attrs where
  cur_fg : Color
  cur_bg : Option Color
  cur_bold : Bool
  cur_italic : Bool
  cur_underline : Bool
  cur_inverse : Bool
deriving DecidableEq, Repr

/-- Read the attribute fields out of the grid. -/
def TerminalGrid.attrs (g : TerminalGrid) : Attrs :=
  { cur_fg := g.cur_fg, cur_bg := g.cur_bg, cur_bold := g.cur_bold,
    cur_italic := g.cur_italic, cur_underline := g.cur_underline,
    cur_inverse := g.cur_inverse }

/-- Write the attribute fields back into the grid. -/
def TerminalGrid.setAttrs (g : TerminalGrid) (a : Attrs) : TerminalGrid :=
  { g with
    cur_fg := a.cur_fg
    cur_bg := a.cur_bg
    cur_bold := a.cur_bold
    cur_italic := a.cur_italic
    cur_underline := a.cur_underline
    cur_inverse := a.cur_inverse }

/-- The attribute values set by `TerminalGrid::reset_attributes`. -/
def resetAttrs : Attrs :=
  { cur_fg := (1, 1, 1, 1), cur_bg := none, cur_bold := false,
    cur_italic := false, cur_underline := false, cur_inverse := false }

/-- `TerminalGrid::reset_attributes`. -/
def TerminalGrid.reset_attributes (g : TerminalGrid) : TerminalGrid :=
  g.setAttrs resetAttrs

/-- The `while i < params_vec.len()` loop of `TerminalGrid::handle_sgr`,
recursing on the flattened parameter list.  The `38`/`48` arms consume the
extra parameters exactly when the source's bounds checks pass; otherwise
only the `38`/`48` itself is consumed and the next parameter is examined
as an ordinary SGR code, as in the source. -/
def sgrRun (a : Attrs) : List Nat → Attrs
  | [] => a
  | 38 :: 5 :: k :: rest => sgrRun { a with cur_fg := ansi_color k } rest
  | 38 :: 2 :: r :: gr :: b :: rest =>
      sgrRun
        { a with cur_fg := ((r : ℚ) / 255, (gr : ℚ) / 255, (b : ℚ) / 255, 1) }
        rest
  | 48 :: 5 :: k :: rest => sgrRun { a with cur_bg := some (ansi_color k) } rest
  | 48 :: 2 :: r :: gr :: b :: rest =>
      sgrRun
        { a with
          cur_bg := some ((r : ℚ) / 255, (gr : ℚ) / 255, (b : ℚ) / 255, 1) }
        rest
  | p :: rest =>
    if p = 0 then sgrRun resetAttrs rest
    else if p = 1 then sgrRun { a with cur_bold := true } rest
    else if p = 3 then sgrRun { a with cur_italic := true } rest
    else if p = 4 then sgrRun { a with cur_underline := true } rest
    else if p = 7 then sgrRun { a with cur_inverse := true } rest
    else if p = 22 then sgrRun { a with cur_bold := false } rest
    else if p = 23 then sgrRun { a with cur_italic := false } rest
    else if p = 24 then sgrRun { a with cur_underline := false } rest
    else if p = 27 then sgrRun { a with cur_inverse := false } rest
    else if 30 ≤ p ∧ p ≤ 37 then sgrRun { a with cur_fg := ansi_color (p - 30) } rest
    else if p = 39 then sgrRun { a with cur_fg := (1, 1, 1, 1) } rest
    else if 40 ≤ p ∧ p ≤ 47 then
      sgrRun { a with cur_bg := some (ansi_color (p - 40)) } rest
    else if p = 49 then sgrRun { a with cur_bg := none } rest
    else if 90 ≤ p ∧ p ≤ 97 then
      sgrRun { a with cur_fg := ansi_color (p - 90 + 8) } rest
    else if 100 ≤ p ∧ p ≤ 107 then
      sgrRun { a with cur_bg := some (ansi_color (p - 100 + 8)) } rest
    else sgrRun a rest

/-- `TerminalGrid::handle_sgr`: flatten sub-parameters; empty means reset. -/
def TerminalGrid.handle_sgr (g : TerminalGrid) (params : List (List Nat)) :
    TerminalGrid :=
  let params_vec := params.flatten
  if params_vec.isEmpty then g.reset_attributes
  else g.setAttrs (sgrRun g.attrs params_vec)

/-- Iterate `f` `n` times, for the `for _ in 0..n` loops in the source. -/
def iterN (f : α → α) : Nat → α → α
  | 0, a => a
  | n + 1, a => iterN f n (f a)

/-- `Perform::print for TerminalGrid`. -/
def TerminalGrid.print (g0 : TerminalGrid) (ch : Char) : TerminalGrid :=
  let g :=
    if g0.cols ≤ g0.cursor_col then
      let g1 := { g0 with cursor_col := 0, cursor_row := g0.cursor_row + 1 }
      if g1.scroll_bottom < g1.cursor_row then
        TerminalGrid.scroll_up { g1 with cursor_row := g1.scroll_bottom }
      else g1
    else g0
  let g2 :=
    if g.cursor_row < g.rows ∧ g.cursor_col < g.cols then
      { g with
        cells := g.cells.set g.cursor_row
          ((g.cells.getD g.cursor_row []).set g.cursor_col (g.new_cell ch))
        cursor_col := g.cursor_col + 1 }
    else g
  { g2 with dirty := true }

/-- `Perform::execute for TerminalGrid` (C0 controls). -/
def TerminalGrid.execute (g : TerminalGrid) (byte : Nat) : TerminalGrid :=
  let g1 :=
    if byte = 0x07 then g
    else if byte = 0x08 then
      if 0 < g.cursor_col then { g with cursor_col := g.cursor_col - 1 } else g
    else if byte = 0x09 then
      { g with cursor_col := min ((g.cursor_col / 8 + 1) * 8) (g.cols - 1) }
    else if byte = 0x0A ∨ byte = 0x0B ∨ byte = 0x0C then
      let g2 := { g with cursor_row := g.cursor_row + 1 }
      if g2.scroll_bottom < g2.cursor_row then
        TerminalGrid.scroll_up { g2 with cursor_row := g2.scroll_bottom }
      else g2
    else if byte = 0x0D then { g with cursor_col := 0 }
    else g
  { g1 with dirty := true }

/-- `n` defaulting to 1 when the parameter is absent or 0. -/
def csiN (first : Nat) : Nat := if first = 0 then 1 else first

/-- `Perform::csi_dispatch for TerminalGrid`. -/
def TerminalGrid.csi_dispatch (g : TerminalGrid) (params : List (List Nat))
    (inter : List Nat) (action : Char) : TerminalGrid :=
  let first := (params.head?.bind List.head?).getD 0
  if action = 'A' then
    { g with cursor_row := g.cursor_row - csiN first }
  else if action = 'B' then
    { g with cursor_row := min (g.cursor_row + csiN first) (g.rows - 1) }
  else if action = 'C' then
    { g with cursor_col := min (g.cursor_col + csiN first) (g.cols - 1) }
  else if action = 'D' then
    { g with cursor_col := g.cursor_col - csiN first }
  else if action = 'E' then
    { g with
      cursor_row := min (g.cursor_row + csiN first) (g.rows - 1)
      cursor_col := 0 }
  else if action = 'F' then
    { g with cursor_row := g.cursor_row - csiN first, cursor_col := 0 }
  else if action = 'G' then
    { g with cursor_col := min (csiN first - 1) (g.cols - 1) }
  else if action = 'H' ∨ action = 'f' then
    let row := csiN first
    let col := (params[1]?.bind List.head?).getD 1
    let col := if col = 0 then 1 else col
    { g with
      cursor_row := min (row - 1) (g.rows - 1)
      cursor_col := min (col - 1) (g.cols - 1) }
  else if action = 'J' then
    g.erase_in_display first
  else if action = 'K' then
    g.erase_in_line first
  else if action = 'L' then
    let cells := iterN
      (fun cs =>
        if g.cursor_row ≤ g.scroll_bottom then
          (cs.eraseIdx g.scroll_bottom).insertIdx g.cursor_row
            (List.replicate g.cols Cell.default)
        else cs)
      (csiN first) g.cells
    { g with cells := cells, dirty := true }
  else if action = 'M' then
    let cells := iterN
      (fun cs =>
        if g.cursor_row ≤ g.scroll_bottom then
          (cs.eraseIdx g.cursor_row).insertIdx g.scroll_bottom
            (List.replicate g.cols Cell.default)
        else cs)
      (csiN first) g.cells
    { g with cells := cells, dirty := true }
  else if action = 'P' then
    let row := iterN
      (fun r =>
        if g.cursor_col < r.length then
          r.eraseIdx g.cursor_col ++ [Cell.default]
        else r)
      (min (csiN first) (g.cols - g.cursor_col)) (g.cells.getD g.cursor_row [])
    { g with cells := g.cells.set g.cursor_row row, dirty := true }
  else if action = 'S' then
    iterN TerminalGrid.scroll_up (csiN first) g
  else if action = 'T' then
    iterN TerminalGrid.scroll_down (csiN first) g
  else if action = '@' then
    let row := iterN
      (fun r => (r.insertIdx g.cursor_col Cell.default).take g.cols)
      (min (csiN first) (g.cols - g.cursor_col)) (g.cells.getD g.cursor_row [])
    { g with cells := g.cells.set g.cursor_row row, dirty := true }
  else if action = 'm' then
    g.handle_sgr params
  else if action = 'r' then
    let top := csiN first
    let bottom :=
      ((params[1]?.bind List.head?).map (fun b => if b = 0 then g.rows else b)).getD
        g.rows
    { g with
      scroll_top := min (top - 1) (g.rows - 1)
      scroll_bottom := min (bottom - 1) (g.rows - 1)
      cursor_row := 0
      cursor_col := 0 }
  else if action = 'h' ∧ inter = [0x3F] then
    params.foldl
      (fun h sub =>
        let code := sub.head?.getD 0
        if code = 1000 then
          { h with mouse_click := true, mouse_drag := false, mouse_motion := false }
        else if code = 1002 then
          { h with mouse_click := false, mouse_drag := true, mouse_motion := false }
        else if code = 1003 then
          { h with mouse_click := false, mouse_drag := false, mouse_motion := true }
        else if code = 1006 then { h with mouse_sgr := true }
        else h)
      g
  else if action = 'l' ∧ inter = [0x3F] then
    params.foldl
      (fun h sub =>
        let code := sub.head?.getD 0
        if code = 1000 then { h with mouse_click := false }
        else if code = 1002 then { h with mouse_drag := false }
        else if code = 1003 then { h with mouse_motion := false }
        else if code = 1006 then { h with mouse_sgr := false }
        else h)
      g
  else g

/-- `Perform::esc_dispatch for TerminalGrid`. -/
def TerminalGrid.esc_dispatch (g : TerminalGrid) (_inter : List Nat)
    (byte : Nat) : TerminalGrid :=
  if byte = 0x37 ∨ byte = 0x73 then
    { g with saved_cursor_row := g.cursor_row, saved_cursor_col := g.cursor_col }
  else if byte = 0x38 ∨ byte = 0x75 then
    { g with cursor_row := g.saved_cursor_row, cursor_col := g.saved_cursor_col }
  else if byte = 0x4D then
    if g.cursor_row = g.scroll_top then { g.scroll_down with dirty := true }
    else { g with cursor_row := g.cursor_row - 1, dirty := true }
  else g

/-- The parser callback events (`copa::Perform`); any byte sequence fed
through the VT parser is dispatched to the grid as a sequence of these. -/
inductive Event where
  | print (c : Char)
  | execute (b : Nat)
  | csi (params : List (List Nat)) (inter : List Nat) (action : Char)
  | esc (inter : List Nat) (b : Nat)
  | osc (params : List (List Nat))

/-- Dispatch one parser event to the grid (`impl Perform for TerminalGrid`;
`osc_dispatch` is a no-op in the source). -/
def step (g : TerminalGrid) (e : Event) : TerminalGrid :=
  match e with
  | .print c => g.print c
  | .execute b => g.execute b
  | .csi p i a => g.csi_dispatch p i a
  | .esc i b => g.esc_dispatch i b
  | .osc _ => g

/-- Run a sequence of parser events. -/
def run (g : TerminalGrid) (es : List Event) : TerminalGrid := es.foldl step g

/-- `TerminalGrid::mouse_report`. -/
def TerminalGrid.mouse_report (g : TerminalGrid) (button modifiers : Nat)
    (col row : Nat) (pressed : Bool) : TerminalGrid :=
  if g.mouse_mode = MouseMode.none ∨ g.mouse_sgr = false then g
  else
    let col := min col (g.cols - 1)
    let row := min row (g.rows - 1)
    let cb := Nat.lor button modifiers
    let suffix := if pressed then 'M' else 'm'
    let seq := "\x1b[<" ++ toString cb ++ ";" ++ toString (col + 1) ++ ";" ++
      toString (row + 1) ++ String.singleton suffix
    { g with pending_writes := g.pending_writes ++ seq.data }

/-- `cells` holds exactly `rows` rows of exactly `cols` cells each. -/
def CellsWF (cols rows : Nat) (cells : List (List Cell)) : Prop :=
  cells.length = rows ∧ ∀ r ∈ cells, r.length = cols

instance (cols rows : Nat) (cells : List (List Cell)) :
    Decidable (CellsWF cols rows cells) := by
  unfold CellsWF; infer_instance

/-- The grid well-formedness invariant of the spec, without the
`scroll_top ≤ scroll_bottom` clause (which the code does not maintain,
see the DECSTBM counterexample below), and strengthened with bounds on the
saved cursor (needed so that `ESC 8` restores an in-bounds cursor; `ESC 7`
only ever saves an in-bounds one). -/
def GridWF (g : TerminalGrid) : Prop :=
  0 < g.cols ∧ 0 < g.rows ∧
  g.cursor_row < g.rows ∧ g.cursor_col ≤ g.cols ∧
  CellsWF g.cols g.rows g.cells ∧
  g.scroll_top < g.rows ∧ g.scroll_bottom < g.rows ∧
  g.saved_cursor_row < g.rows ∧ g.saved_cursor_col ≤ g.cols

instance (g : TerminalGrid) : Decidable (GridWF g) := by
  unfold GridWF; infer_instance

/-- The scrollback push contract in the spec's words:
`push(row); if len > MAX_SCROLLBACK { drop_front }`.  Stated separately from
`TerminalGrid.scroll_up` so the two can be compared. -/
def scrollbackPushSpec (sb : List (List Cell)) (row : List Cell) :
    List (List Cell) :=
  let sb2 := sb ++ [row]
  if MAX_SCROLLBACK < sb2.length then sb2.eraseIdx 0 else sb2

end Terminal

namespace WebServer

/-- `const MAX_BUFFER_SIZE: usize = 1024 * 1024`. -/
def MAX_BUFFER_SIZE : Nat := 1024 * 1024

/-- A session UUID in its 16-byte big-endian form. -/
abbrev SessionId := List Nat

/-- `struct SessionOutput`.  The `mpsc::UnboundedSender` is modelled by an
abstract channel identifier; whether a `send` on a channel fails (receiver
gone) is decided by the environment oracle `dead` passed to `write`. -/
structure SessionOutput where
  buffer : List Nat
  sender : Option Nat
deriving DecidableEq, Repr

/-- `SessionOutput::new`. -/
def SessionOutput.new (sender : Nat) : SessionOutput :=
  { buffer := [], sender := some sender }

/-- `SessionOutput::buffer_data`: append, then drain the oldest excess. -/
def SessionOutput.buffer_data (o : SessionOutput) (data : List Nat) :
    SessionOutput :=
  let buffer := o.buffer ++ data
  if MAX_BUFFER_SIZE < buffer.length then
    { o with buffer := buffer.drop (buffer.length - MAX_BUFFER_SIZE) }
  else { o with buffer := buffer }

/-- `SessionOutput::write`; besides the updated state it returns the chunk
delivered to the channel, if any. -/
def SessionOutput.write (dead : Nat → Bool) (o : SessionOutput)
    (data : List Nat) : SessionOutput × Option (Nat × List Nat) :=
  match o.sender with
  | some s =>
    if dead s then (SessionOutput.buffer_data { o with sender := none } data, none)
    else (o, some (s, data))
  | none => (o.buffer_data data, none)

/-- Run `write` on each chunk in turn, collecting the delivered messages
(the reader task calls `output.write` once per PTY read). -/
def SessionOutput.writeAll (dead : Nat → Bool) (o : SessionOutput) :
    List (List Nat) → SessionOutput × List (Nat × List Nat)
  | [] => (o, [])
  | d :: rest =>
    let r := o.write dead d
    let r2 := SessionOutput.writeAll dead r.1 rest
    (r2.1, r.2.toList ++ r2.2)

/-- `SessionOutput::attach`: install the new sender and take the buffer. -/
def SessionOutput.attach (o : SessionOutput) (sender : Nat) :
    SessionOutput × List Nat :=
  ({ buffer := [], sender := some sender }, o.buffer)

/-- `SessionOutput::detach`. -/
def SessionOutput.detach (o : SessionOutput) : SessionOutput :=
  { o with sender := none }

/-- `struct Session` — the lifecycle-relevant fields.  The PTY file
descriptor, child pid and reader task are external I/O resources; `Instant`
timestamps are modelled as `Nat`. -/
structure Session where
  cols : Nat
  rows : Nat
  output : SessionOutput
  disconnected_at : Option Nat
deriving DecidableEq, Repr

/-- `SessionManager`: the `DashMap` is modelled as an association list whose
keys are pairwise distinct in any reachable state. -/
structure SessionManager where
  sessions : List (SessionId × Session)
deriving DecidableEq, Repr

/-- `SessionManager::attach_session`: on a hit, replace the consumer, clear
`disconnected_at`, and hand back the drained buffer; `none` models the
`Session not found` error. -/
def SessionManager.attach_session (m : SessionManager) (sid : SessionId)
    (sender : Nat) : Option (SessionManager × List Nat) :=
  match m.sessions.find? (fun e => e.1 == sid) with
  | none => none
  | some e =>
    let r := e.2.output.attach sender
    some
      ({ sessions :=
          m.sessions.map fun e2 =>
            if e2.1 = sid then
              (e2.1, { e2.2 with output := r.1, disconnected_at := none })
            else e2 },
        r.2)

/-- `SessionManager::detach_session` at time `now`. -/
def SessionManager.detach_session (m : SessionManager) (sid : SessionId)
    (now : Nat) : SessionManager :=
  { sessions :=
      m.sessions.map fun e =>
        if e.1 = sid then
          (e.1, { e.2 with output := e.2.output.detach, disconnected_at := some now })
        else e }

/-- `SessionManager::close_session`: remove the entry with this key. -/
def SessionManager.close_session (m : SessionManager) (sid : SessionId) :
    SessionManager :=
  { sessions := m.sessions.eraseP (fun e => e.1 == sid) }

/-- The staleness test of `reap_stale_sessions`:
`now.duration_since(disconnected_at) > max_disconnect_duration`. -/
def stalePred (now maxd : Nat) (s : Session) : Bool :=
  match s.disconnected_at with
  | some t => decide (maxd < now - t)
  | none => false

/-- `SessionManager::reap_stale_sessions`: collect the stale keys, then
close each one. -/
def SessionManager.reap_stale_sessions (m : SessionManager) (now maxd : Nat) :
    SessionManager :=
  let stale := m.sessions.filterMap
    (fun e => if stalePred now maxd e.2 then some e.1 else none)
  stale.foldl (fun acc sid => acc.close_session sid) m

/-- Outbound framing in `handle_socket`: 16 id bytes then the payload. -/
def buildFrame (sid : SessionId) (data : List Nat) : List Nat := sid ++ data

/-- `Uuid::from_slice`: succeeds exactly on 16-byte slices. -/
def uuidFromSlice (bytes : List Nat) : Option SessionId :=
  if bytes.length = 16 then some bytes else none

/-- Inbound binary demultiplexing in `handle_socket`: a frame of more than
16 bytes is split into (session id, payload) and the payload is written to
that session; anything shorter is dropped without touching any state. -/
def demuxBinary (data : List Nat) : Option (SessionId × List Nat) :=
  if 16 < data.length then
    match uuidFromSlice (data.take 16) with
    | some sid => some (sid, data.drop 16)
    | none => none
  else none

/-- Messages the server sends to the client over the WebSocket. -/
inductive OutMsg where
  | created (sid : SessionId)
  | attached (sid : SessionId)
  | errorMsg (s : String)
  | binary (frame : List Nat)
deriving DecidableEq, Repr

/-- The messages the `"attach"` arm of `handle_control_message` emits on a
successful attach, given the bytes that were buffered in the session: the
buffered bytes go out first as one binary frame (when nonempty), then the
`attached` text reply. -/
def attachReplies (sid : SessionId) (buffered : List Nat) : List OutMsg :=
  (if buffered.isEmpty then [] else [OutMsg.binary (buildFrame sid buffered)]) ++
    [OutMsg.attached sid]

/-- The fragment of `serde_json::Value` the control handler inspects. -/
inductive JVal where
  | num (n : Nat)
  | str (s : String)
  | other
deriving DecidableEq, Repr

/-- `Value::as_u64`: only non-negative integral numbers. -/
def JVal.as_u64 : JVal → Option Nat
  | .num n => some n
  | _ => none

/-- `Value::as_str`. -/
def JVal.as_str : JVal → Option String
  | .str s => some s
  | _ => none

/-- The operation a control message resolves to. -/
inductive CtrlStep where
  | createOp (cols rows : Nat)
  | resizeOp (sid : SessionId) (cols rows : Nat)
  | attachOp (sid : SessionId)
  | closeOp (sid : SessionId)
  | errorReply (msg : String)
deriving DecidableEq, Repr

/-- The field extraction of `handle_control_message` (`main.rs`): a parsed
message is a partial map from field names to values.  `create` and `resize`
default a missing or non-numeric `cols`/`rows` to 80 and 24; the `as u16`
cast truncates mod 2^16.  `parseUuid` abstracts `str::parse::<Uuid>`. -/
def handle_control_message (parseUuid : String → Option SessionId)
    (msg : String → Option JVal) : CtrlStep :=
  match (msg "type").bind JVal.as_str with
  | none => .errorReply "Missing type field"
  | some t =>
    if t = "create" then
      .createOp ((((msg "cols").bind JVal.as_u64).getD 80) % 65536)
        ((((msg "rows").bind JVal.as_u64).getD 24) % 65536)
    else if t = "resize" then
      match (msg "session_id").bind JVal.as_str with
      | none => .errorReply "Missing session_id"
      | some s =>
        match parseUuid s with
        | none => .errorReply "Invalid session_id"
        | some sid =>
          .resizeOp sid ((((msg "cols").bind JVal.as_u64).getD 80) % 65536)
            ((((msg "rows").bind JVal.as_u64).getD 24) % 65536)
    else if t = "attach" then
      match (msg "session_id").bind JVal.as_str with
      | none => .errorReply "Missing session_id"
      | some s =>
        match parseUuid s with
        | none => .errorReply "Invalid session_id"
        | some sid => .attachOp sid
    else if t = "close" then
      match (msg "session_id").bind JVal.as_str with
      | none => .errorReply "Missing session_id"
      | some s =>
        match parseUuid s with
        | none => .errorReply "Invalid session_id"
        | some sid => .closeOp sid
    else .errorReply ("Unknown message type: " ++ t)

end WebServer

/-! ## Theorems -/

namespace WebServer

/-- Helper: `buffer_data` keeps the most recent `MAX_BUFFER_SIZE` bytes of
the concatenation and does not touch the sender. -/
theorem buffer_data_spec (o : SessionOutput) (d : List Nat) :
    (o.buffer_data d).buffer =
      (o.buffer ++ d).drop ((o.buffer ++ d).length - MAX_BUFFER_SIZE) ∧
    (o.buffer_data d).sender = o.sender := by
  unfold SessionOutput.buffer_data
  dsimp only
  split
  · exact ⟨by simp only, by simp only⟩
  · rename_i h
    rw [Nat.sub_eq_zero_of_le (Nat.le_of_not_lt h), List.drop_zero]
    exact ⟨by simp only, by simp only⟩

/-- Helper: after any `buffer_data` the buffer is within the cap. -/
theorem buffer_data_length_le (o : SessionOutput) (d : List Nat) :
    (o.buffer_data d).buffer.length ≤ MAX_BUFFER_SIZE := by
  unfold SessionOutput.buffer_data
  dsimp only
  split
  · rename_i h
    simp only [List.length_drop]
    omega
  · rename_i h
    simp only
    omega

/-- Helper: composing two "keep the last `MAX_BUFFER_SIZE`" truncations is
one truncation of the whole stream. -/
theorem drop_excess_compose (x y : List Nat) :
    (x.drop (x.length - MAX_BUFFER_SIZE) ++ y).drop
        ((x.drop (x.length - MAX_BUFFER_SIZE) ++ y).length - MAX_BUFFER_SIZE) =
      (x ++ y).drop ((x ++ y).length - MAX_BUFFER_SIZE) := by
  rw [← List.drop_append_of_le_length
    (by omega : x.length - MAX_BUFFER_SIZE ≤ x.length)]
  rw [List.drop_drop]
  have harg : x.length - MAX_BUFFER_SIZE +
        (((x ++ y).drop (x.length - MAX_BUFFER_SIZE)).length - MAX_BUFFER_SIZE) =
      (x ++ y).length - MAX_BUFFER_SIZE := by
    simp only [List.length_drop, List.length_append]
    omega
  rw [harg]

/-- Helper: a detached `SessionOutput` stays detached through `writeAll`,
delivers nothing, and ends up holding the tail of the whole stream. -/
theorem writeAll_detached (dead : Nat → Bool) (ws : List (List Nat))
    (o : SessionOutput) (h : o.sender = none)
    (h2 : o.buffer.length ≤ MAX_BUFFER_SIZE) :
    (SessionOutput.writeAll dead o ws).1.sender = none ∧
    (SessionOutput.writeAll dead o ws).1.buffer =
      (o.buffer ++ ws.flatten).drop
        ((o.buffer ++ ws.flatten).length - MAX_BUFFER_SIZE) ∧
    (SessionOutput.writeAll dead o ws).2 = [] := by
  induction ws generalizing o with
  | nil =>
    refine ⟨h, ?_, rfl⟩
    simp only [SessionOutput.writeAll, List.flatten_nil, List.append_nil]
    rw [Nat.sub_eq_zero_of_le h2, List.drop_zero]
  | cons d rest ih =>
    have hw : SessionOutput.write dead o d = (o.buffer_data d, none) := by
      unfold SessionOutput.write
      rw [h]
    have hbd := buffer_data_spec o d
    have ihbd := ih (o.buffer_data d) (hbd.2.trans h) (buffer_data_length_le o d)
    simp only [SessionOutput.writeAll, hw]
    refine ⟨ihbd.1, ?_, by simpa using ihbd.2.2⟩
    rw [ihbd.2.1, hbd.1, drop_excess_compose, List.flatten_cons,
      ← List.append_assoc]

/-- Helper: while the attached channel is alive, every write is delivered
to it in order and the state does not change at all. -/
theorem writeAll_live (dead : Nat → Bool) (ws : List (List Nat))
    (o : SessionOutput) (c : Nat) (h : o.sender = some c)
    (hc : dead c = false) :
    SessionOutput.writeAll dead o ws = (o, ws.map (fun d => (c, d))) := by
  induction ws generalizing o with
  | nil => simp [SessionOutput.writeAll]
  | cons d rest ih =>
    have hw : SessionOutput.write dead o d = (o, some (c, d)) := by
      unfold SessionOutput.write
      rw [h]
      simp [hc]
    simp [SessionOutput.writeAll, hw, ih o h]

/-- **C3.**  While no consumer channel is attached the buffer always stays
within `MAX_BUFFER_SIZE` and holds exactly the most recent bytes of the
written stream (the oldest excess is dropped from the front); and a write
whose channel send fails detaches the sender and buffers the same way. -/
theorem C3_ring_bounded_most_recent (dead : Nat → Bool) (o : SessionOutput)
    (ws : List (List Nat)) (h : o.sender = none)
    (h2 : o.buffer.length ≤ MAX_BUFFER_SIZE) :
    ((SessionOutput.writeAll dead o ws).1.buffer.length ≤ MAX_BUFFER_SIZE ∧
      (SessionOutput.writeAll dead o ws).1.buffer =
        (o.buffer ++ ws.flatten).drop
          ((o.buffer ++ ws.flatten).length - MAX_BUFFER_SIZE)) ∧
    (∀ (o2 : SessionOutput) (c : Nat) (d : List Nat),
      o2.sender = some c → dead c = true →
      (o2.write dead d).1.sender = none ∧
      (o2.write dead d).1.buffer =
        (o2.buffer ++ d).drop ((o2.buffer ++ d).length - MAX_BUFFER_SIZE) ∧
      (o2.write dead d).1.buffer.length ≤ MAX_BUFFER_SIZE) := by
  have hd := writeAll_detached dead ws o h h2
  refine ⟨⟨?_, hd.2.1⟩, ?_⟩
  · rw [hd.2.1]
    simp only [List.length_drop]
    omega
  · intro o2 c d hsen hdead
    have hw : SessionOutput.write dead o2 d =
        (SessionOutput.buffer_data { o2 with sender := none } d, none) := by
      unfold SessionOutput.write
      rw [hsen]
      simp [hdead]
    have hbd := buffer_data_spec { o2 with sender := none } d
    have hle := buffer_data_length_le { o2 with sender := none } d
    rw [hw]
    exact ⟨hbd.2, hbd.1, hle⟩

/-- **C4.**  `attach` hands back exactly the bytes buffered since the
channel was detached, in write order, leaves the buffer empty, and every
subsequent write while the new channel stays alive is delivered to it,
bypassing the buffer; `attach_session` additionally clears
`disconnected_at` on the attached session. -/
theorem C4_attach_drains_then_streams (dead : Nat → Bool) (s : Session)
    (ch : Nat) (ws ws2 : List (List Nat)) (hsen : s.output.sender = none)
    (hbuf : s.output.buffer = [])
    (hlen : ws.flatten.length ≤ MAX_BUFFER_SIZE) (hch : dead ch = false) :
    ((SessionOutput.writeAll dead s.output ws).1.attach ch).2 = ws.flatten ∧
    ((SessionOutput.writeAll dead s.output ws).1.attach ch).1.buffer = [] ∧
    ((SessionOutput.writeAll dead s.output ws).1.attach ch).1.sender = some ch ∧
    (SessionOutput.writeAll dead
        ((SessionOutput.writeAll dead s.output ws).1.attach ch).1 ws2).2 =
      ws2.map (fun d => (ch, d)) ∧
    (SessionOutput.writeAll dead
        ((SessionOutput.writeAll dead s.output ws).1.attach ch).1 ws2).1.buffer
      = [] ∧
    (∀ (m m2 : SessionManager) (sid : SessionId) (buffered : List Nat),
      m.attach_session sid ch = some (m2, buffered) →
      ∀ e ∈ m2.sessions, e.1 = sid → e.2.disconnected_at = none) := by
  have hd := writeAll_detached dead ws s.output hsen (by rw [hbuf]; simp)
  have hbufeq : (SessionOutput.writeAll dead s.output ws).1.buffer = ws.flatten := by
    rw [hd.2.1, hbuf, List.nil_append, Nat.sub_eq_zero_of_le hlen,
      List.drop_zero]
  have hatt : ((SessionOutput.writeAll dead s.output ws).1.attach ch) =
      ({ buffer := [], sender := some ch },
        (SessionOutput.writeAll dead s.output ws).1.buffer) := rfl
  have hlive := writeAll_live dead ws2
    ({ buffer := [], sender := some ch } : SessionOutput) ch (by simp only) hch
  refine ⟨by rw [hatt, hbufeq], by rw [hatt], by rw [hatt], ?_, ?_, ?_⟩
  · rw [hatt]
    simp only
    rw [hlive]
  · rw [hatt]
    simp only
    rw [hlive]
  · intro m m2 sid buffered hatt2 e he hk
    unfold SessionManager.attach_session at hatt2
    cases hfind : m.sessions.find? (fun e2 => e2.1 == sid) with
    | none => rw [hfind] at hatt2; exact absurd hatt2 (by simp)
    | some e0 =>
      rw [hfind] at hatt2
      simp only [Option.some.injEq, Prod.mk.injEq] at hatt2
      obtain ⟨hm2, -⟩ := hatt2
      rw [← hm2] at he
      simp only [List.mem_map] at he
      obtain ⟨e1, -, hfe⟩ := he
      by_cases hcase : e1.1 = sid
      · rw [if_pos hcase] at hfe
        rw [← hfe]
      · rw [if_neg hcase] at hfe
        exact absurd (hfe ▸ hk) hcase

/-- **C5.**  Outbound binary frames are exactly the 16 session-id bytes
followed by the payload; inbound frames longer than 16 bytes demultiplex
into exactly that (session id, payload) pair, which round-trips the framing;
inbound frames of 16 or fewer bytes are dropped. -/
theorem C5_framing_roundtrip :
    (∀ (sid : SessionId) (payload : List Nat),
      buildFrame sid payload = sid ++ payload) ∧
    (∀ frame : List Nat, 16 < frame.length →
      demuxBinary frame = some (frame.take 16, frame.drop 16) ∧
      frame.take 16 ++ frame.drop 16 = frame) ∧
    (∀ (sid : SessionId) (payload : List Nat), sid.length = 16 →
      payload ≠ [] →
      demuxBinary (buildFrame sid payload) = some (sid, payload)) ∧
    (∀ frame : List Nat, frame.length ≤ 16 → demuxBinary frame = none) := by
  refine ⟨fun _ _ => rfl, ?_, ?_, ?_⟩
  · intro frame hlen
    constructor
    · unfold demuxBinary uuidFromSlice
      rw [if_pos hlen, List.length_take, if_pos (by omega)]
    · exact List.take_append_drop 16 frame
  · intro sid payload hsid hpay
    have hlen : 16 < (buildFrame sid payload).length := by
      unfold buildFrame
      rw [List.length_append, hsid]
      have := List.length_pos.mpr hpay
      omega
    unfold demuxBinary uuidFromSlice
    rw [if_pos hlen, List.length_take, if_pos (by omega)]
    unfold buildFrame
    rw [← hsid, List.take_left, List.drop_left]
  · intro frame hlen
    unfold demuxBinary
    rw [if_neg (by omega)]

/-- Helper: in a list with pairwise-distinct keys, equal keys force equal
entries. -/
theorem key_inj {α β : Type} (l : List (α × β))
    (h : (l.map Prod.fst).Nodup) {a b : α × β} (ha : a ∈ l) (hb : b ∈ l)
    (hk : a.1 = b.1) : a = b := by
  induction l with
  | nil => cases ha
  | cons e t ih =>
    rw [List.map_cons, List.nodup_cons] at h
    cases ha with
    | head =>
      cases hb with
      | head => rfl
      | tail _ hb2 =>
        have : a.1 ∈ t.map Prod.fst := hk ▸ List.mem_map_of_mem Prod.fst hb2
        exact absurd this h.1
    | tail _ ha2 =>
      cases hb with
      | head =>
        have : b.1 ∈ t.map Prod.fst := hk ▸ List.mem_map_of_mem Prod.fst ha2
        exact absurd this h.1
      | tail _ hb2 => exact ih h.2 ha2 hb2

/-- Helper: under distinct keys, removing the first entry with a given key
is the same as filtering that key out. -/
theorem eraseP_key_eq_filter {β : Type} (l : List (SessionId × β))
    (sid : SessionId) (h : (l.map Prod.fst).Nodup) :
    l.eraseP (fun e => e.1 == sid) = l.filter (fun e => !(e.1 == sid)) := by
  induction l with
  | nil => rfl
  | cons e t ih =>
    rw [List.map_cons, List.nodup_cons] at h
    by_cases hcase : e.1 = sid
    · rw [List.eraseP_cons_of_pos (by simp [hcase]),
        List.filter_cons_of_neg (by simp [hcase])]
      refine (List.filter_eq_self.mpr ?_).symm
      intro a ha
      have : a.1 ≠ sid := by
        intro hasid
        exact h.1 (hcase ▸ hasid ▸ List.mem_map_of_mem Prod.fst ha)
      simp [this]
    · rw [List.eraseP_cons_of_neg (by simp [hcase]),
        List.filter_cons_of_pos (by simp [hcase]), ih h.2]

/-- Helper: closing a collected list of keys equals filtering them out,
under distinct keys. -/
theorem close_fold_eq_filter (ids : List SessionId) (m : SessionManager)
    (h : (m.sessions.map Prod.fst).Nodup) :
    (ids.foldl (fun acc sid => acc.close_session sid) m).sessions =
      m.sessions.filter (fun e => !ids.contains e.1) := by
  induction ids generalizing m with
  | nil =>
    simp only [List.foldl_nil]
    refine (List.filter_eq_self.mpr ?_).symm
    intro a _
    simp
  | cons i ids ih =>
    rw [List.foldl_cons]
    have hstep : (m.close_session i).sessions =
        m.sessions.filter (fun e => !(e.1 == i)) := by
      unfold SessionManager.close_session
      exact eraseP_key_eq_filter m.sessions i h
    have hnd : ((m.close_session i).sessions.map Prod.fst).Nodup := by
      rw [hstep]
      exact h.sublist (List.Sublist.map Prod.fst (List.filter_sublist _))
    rw [ih (m.close_session i) hnd, hstep, List.filter_filter]
    refine List.filter_congr ?_
    intro e _
    simp only [List.contains_cons, Bool.not_or, Bool.not_and]
    rw [Bool.and_comm]

/-- **C9.**  `reap_stale_sessions(max_duration)` removes exactly the
sessions whose `disconnected_at` is set and strictly older than
`max_duration`; attached sessions and ones detached for no longer than
`max_duration` remain in the map unchanged. -/
theorem C9_reap_exactly_stale (m : SessionManager) (now maxd : Nat)
    (h : (m.sessions.map Prod.fst).Nodup) :
    (m.reap_stale_sessions now maxd).sessions =
      m.sessions.filter (fun e => !stalePred now maxd e.2) := by
  unfold SessionManager.reap_stale_sessions
  rw [close_fold_eq_filter _ m h]
  refine List.filter_congr ?_
  intro e he
  suffices hiff : (m.sessions.filterMap
      (fun e2 => if stalePred now maxd e2.2 then some e2.1 else none)).contains
        e.1 = stalePred now maxd e.2 by
    rw [hiff]
  by_cases hsp : stalePred now maxd e.2 = true
  · rw [hsp]
    exact List.elem_iff.mpr
      (List.mem_filterMap.mpr ⟨e, he, by rw [if_pos hsp]⟩)
  · rw [Bool.not_eq_true] at hsp
    rw [hsp]
    by_contra hcon
    rw [Bool.not_eq_false] at hcon
    obtain ⟨a, ha, hfa⟩ := List.mem_filterMap.mp (List.elem_iff.mp hcon)
    by_cases hspa : stalePred now maxd a.2 = true
    · rw [if_pos hspa] at hfa
      have hae : a = e := key_inj m.sessions h ha he (Option.some.inj hfa)
      rw [hae] at hspa
      rw [hspa] at hsp
      exact absurd hsp (by simp)
    · rw [if_neg hspa] at hfa
      exact absurd hfa (by simp)

/-- **C10.**  A `create` or `resize` control message whose `cols` or `rows`
field is missing or not a (u64) JSON number is not answered with an error
for that field: each field defaults independently (`cols = 80`,
`rows = 24`), a present numeric field keeps its value (cast `as u16`), and
the operation is performed.  The three cases per message type: only `cols`
defaulted, only `rows` defaulted, both defaulted. -/
theorem C10_missing_size_defaults :
    (∀ (parseUuid : String → Option SessionId) (msg : String → Option JVal)
      (n : Nat),
      (msg "type").bind JVal.as_str = some "create" →
      (msg "cols").bind JVal.as_u64 = none →
      (msg "rows").bind JVal.as_u64 = some n →
      handle_control_message parseUuid msg = .createOp 80 (n % 65536)) ∧
    (∀ (parseUuid : String → Option SessionId) (msg : String → Option JVal)
      (n : Nat),
      (msg "type").bind JVal.as_str = some "create" →
      (msg "cols").bind JVal.as_u64 = some n →
      (msg "rows").bind JVal.as_u64 = none →
      handle_control_message parseUuid msg = .createOp (n % 65536) 24) ∧
    (∀ (parseUuid : String → Option SessionId) (msg : String → Option JVal),
      (msg "type").bind JVal.as_str = some "create" →
      (msg "cols").bind JVal.as_u64 = none →
      (msg "rows").bind JVal.as_u64 = none →
      handle_control_message parseUuid msg = .createOp 80 24) ∧
    (∀ (parseUuid : String → Option SessionId) (msg : String → Option JVal)
      (s : String) (sid : SessionId) (n : Nat),
      (msg "type").bind JVal.as_str = some "resize" →
      (msg "session_id").bind JVal.as_str = some s →
      parseUuid s = some sid →
      (msg "cols").bind JVal.as_u64 = none →
      (msg "rows").bind JVal.as_u64 = some n →
      handle_control_message parseUuid msg = .resizeOp sid 80 (n % 65536)) ∧
    (∀ (parseUuid : String → Option SessionId) (msg : String → Option JVal)
      (s : String) (sid : SessionId) (n : Nat),
      (msg "type").bind JVal.as_str = some "resize" →
      (msg "session_id").bind JVal.as_str = some s →
      parseUuid s = some sid →
      (msg "cols").bind JVal.as_u64 = some n →
      (msg "rows").bind JVal.as_u64 = none →
      handle_control_message parseUuid msg = .resizeOp sid (n % 65536) 24) ∧
    (∀ (parseUuid : String → Option SessionId) (msg : String → Option JVal)
      (s : String) (sid : SessionId),
      (msg "type").bind JVal.as_str = some "resize" →
      (msg "session_id").bind JVal.as_str = some s →
      parseUuid s = some sid →
      (msg "cols").bind JVal.as_u64 = none →
      (msg "rows").bind JVal.as_u64 = none →
      handle_control_message parseUuid msg = .resizeOp sid 80 24) := by
  refine ⟨?_, ?_, ?_, ?_, ?_, ?_⟩
  · intro parseUuid msg n ht hc hrw
    unfold handle_control_message
    rw [ht, hc, hrw]
    simp
  · intro parseUuid msg n ht hc hrw
    unfold handle_control_message
    rw [ht, hc, hrw]
    simp
  · intro parseUuid msg ht hc hrw
    unfold handle_control_message
    rw [ht, hc, hrw]
    simp
  · intro parseUuid msg s sid n ht hs hp hc hrw
    unfold handle_control_message
    rw [ht, hs]
    simp [hp, hc, hrw]
  · intro parseUuid msg s sid n ht hs hp hc hrw
    unfold handle_control_message
    rw [ht, hs]
    simp [hp, hc, hrw]
  · intro parseUuid msg s sid ht hs hp hc hrw
    unfold handle_control_message
    rw [ht, hs]
    simp [hp, hc, hrw]

/-- **C2 counterexample.**  For a session with one buffered byte, the
`attached` text reply is *not* emitted before the binary frame carrying the
buffered bytes: the handler sends the binary frame first. -/
theorem C2_counterexample :
    ¬ ∃ i j : Nat, i < j ∧
      (attachReplies (List.replicate 16 0) [7])[i]? =
        some (OutMsg.attached (List.replicate 16 0)) ∧
      (attachReplies (List.replicate 16 0) [7])[j]? =
        some (OutMsg.binary (buildFrame (List.replicate 16 0) [7])) := by
  intro hcl
  obtain ⟨i, j, hij, hi, hj⟩ := hcl
  have hl : attachReplies (List.replicate 16 0) [7] =
      [OutMsg.binary (buildFrame (List.replicate 16 0) [7]),
        OutMsg.attached (List.replicate 16 0)] := by decide
  rw [hl] at hi hj
  rcases i with - | (- | i2)
  · exact absurd hi (by decide)
  · rcases j with - | (- | j2)
    · exact absurd hij (by omega)
    · exact absurd hij (by omega)
    · simp only [List.getElem?_cons_succ, List.getElem?_nil] at hj
      exact Option.noConfusion hj
  · simp only [List.getElem?_cons_succ, List.getElem?_nil] at hi
    exact Option.noConfusion hi

/-- **C2 (amended).**  On a successful `attach` of a session with buffered
bytes, the server emits the binary frame carrying the buffered bytes first
and the `attached` text reply immediately after it. -/
theorem C2_buffered_frame_then_attached (sid : SessionId)
    (buffered : List Nat) (h : buffered ≠ []) :
    attachReplies sid buffered =
      [OutMsg.binary (buildFrame sid buffered), OutMsg.attached sid] := by
  have hne : buffered.isEmpty = false := by
    cases buffered with
    | nil => exact absurd rfl h
    | cons a t => rfl
  unfold attachReplies
  rw [hne]
  rfl

/-- Witness for C2: a concrete attach with one buffered byte. -/
theorem C2_buffered_frame_then_attached_witness :
    attachReplies (List.replicate 16 1) [5] =
      [OutMsg.binary (buildFrame (List.replicate 16 1) [5]),
        OutMsg.attached (List.replicate 16 1)] :=
  C2_buffered_frame_then_attached (List.replicate 16 1) [5] (by decide)

/-- Witness for C3: two detached writes land in the buffer in order. -/
theorem C3_ring_bounded_most_recent_witness :
    (SessionOutput.writeAll (fun _ => true) ⟨[], none⟩ [[1, 2], [3]]).1.buffer =
      [1, 2, 3] :=
  ((C3_ring_bounded_most_recent (fun _ => true) ⟨[], none⟩ [[1, 2], [3]] rfl
    (by decide)).1.2).trans (by decide)

/-- Witness for C4: attaching after one detached write returns that byte. -/
theorem C4_attach_drains_then_streams_witness :
    ((SessionOutput.writeAll (fun _ => false)
        (⟨80, 24, ⟨[], none⟩, some 3⟩ : Session).output [[9]]).1.attach 0).2 =
      [9] :=
  (C4_attach_drains_then_streams (fun _ => false) ⟨80, 24, ⟨[], none⟩, some 3⟩
    0 [[9]] [[8]] rfl rfl (by decide) rfl).1

/-- Witness for C5: a concrete 17-byte frame round-trips. -/
theorem C5_framing_roundtrip_witness :
    demuxBinary (buildFrame (List.replicate 16 2) [9]) =
      some (List.replicate 16 2, [9]) :=
  C5_framing_roundtrip.2.2.1 (List.replicate 16 2) [9] (by decide) (by decide)

/-- Witness for C9: of three sessions (attached, long-detached,
freshly detached), reaping removes exactly the long-detached one. -/
theorem C9_reap_exactly_stale_witness :
    ((⟨[(List.replicate 16 0, ⟨80, 24, ⟨[], none⟩, none⟩),
        (List.replicate 16 1, ⟨80, 24, ⟨[], none⟩, some 0⟩),
        (List.replicate 16 2, ⟨80, 24, ⟨[], none⟩, some 50⟩)]⟩ :
          SessionManager).reap_stale_sessions 100 60).sessions =
      [(List.replicate 16 0, ⟨80, 24, ⟨[], none⟩, none⟩),
        (List.replicate 16 2, ⟨80, 24, ⟨[], none⟩, some 50⟩)] :=
  (C9_reap_exactly_stale _ 100 60 (by decide)).trans (by decide)

/-- Witness for C10: a `create` with `cols: 100` but no `rows` field keeps
the given width and defaults the height; a `resize` with `rows: 50` but no
`cols` field defaults the width and keeps the given height. -/
theorem C10_missing_size_defaults_witness :
    (handle_control_message (fun _ => some (List.replicate 16 7))
      (fun k => if k = "type" then some (.str "create")
        else if k = "cols" then some (.num 100) else none) =
      .createOp 100 24) ∧
    (handle_control_message (fun _ => some (List.replicate 16 7))
      (fun k => if k = "type" then some (.str "resize")
        else if k = "session_id" then some (.str "s7")
        else if k = "rows" then some (.num 50) else none) =
      .resizeOp (List.replicate 16 7) 80 50) :=
  ⟨(C10_missing_size_defaults.2.1 (fun _ => some (List.replicate 16 7))
      (fun k => if k = "type" then some (.str "create")
        else if k = "cols" then some (.num 100) else none)
      100 rfl rfl rfl).trans (by decide),
    (C10_missing_size_defaults.2.2.2.1 (fun _ => some (List.replicate 16 7))
      (fun k => if k = "type" then some (.str "resize")
        else if k = "session_id" then some (.str "s7")
        else if k = "rows" then some (.num 50) else none)
      "s7" (List.replicate 16 7) 50 rfl rfl rfl rfl rfl).trans (by decide)⟩

end WebServer

namespace Terminal

/-- Helper: a property preserved by each `foldl` step is preserved by the
whole fold. -/
theorem foldl_preserve {α β : Type} {P : α → Prop} {f : α → β → α}
    (hf : ∀ a b, P a → P (f a b)) :
    ∀ (l : List β) (a : α), P a → P (l.foldl f a) := by
  intro l
  induction l with
  | nil => intro a h; exact h
  | cons b t ih => intro a h; exact ih _ (hf a b h)

/-- Helper: a property preserved by `f` is preserved by `iterN f n`. -/
theorem iterN_preserve {α : Type} {P : α → Prop} {f : α → α}
    (hf : ∀ a, P a → P (f a)) :
    ∀ (n : Nat) (a : α), P a → P (iterN f n a) := by
  intro n
  induction n with
  | zero => intro a h; exact h
  | succ n ih => intro a h; exact ih _ (hf a h)

/-- Helper: removing the row at `i < rows` and inserting a fresh blank row
at `j ≤ rows - 1` keeps the cell matrix well-formed. -/
theorem cellsWF_erase_insert {cols rows : Nat} {cells : List (List Cell)}
    (h : CellsWF cols rows cells) (i j : Nat) (hi : i < rows)
    (hj : j ≤ rows - 1) (hrows : 0 < rows) :
    CellsWF cols rows
      ((cells.eraseIdx i).insertIdx j (List.replicate cols Cell.default)) := by
  obtain ⟨hlen, hall⟩ := h
  have hle : (cells.eraseIdx i).length = rows - 1 := by
    rw [List.length_eraseIdx, hlen, if_pos hi]
  constructor
  · rw [List.length_insertIdx _ _ (by omega), hle]
    omega
  · intro r hr
    rcases (List.mem_insertIdx (by omega)).mp hr with h1 | h2
    · rw [h1, List.length_replicate]
    · exact hall r (List.eraseIdx_subset _ _ h2)

/-- Helper: replacing one row by a row of the right width keeps the cell
matrix well-formed. -/
theorem cellsWF_set {cols rows : Nat} {cells : List (List Cell)}
    (h : CellsWF cols rows cells) (i : Nat) {row : List Cell}
    (hrow : row.length = cols) : CellsWF cols rows (cells.set i row) := by
  constructor
  · rw [List.length_set]
    exact h.1
  · intro r hr
    rcases List.mem_or_eq_of_mem_set hr with h1 | h2
    · exact h.2 r h1
    · rw [h2]
      exact hrow

/-- Helper: reading a row of a well-formed matrix gives a `cols`-wide row. -/
theorem getD_row_length {cols rows : Nat} {cells : List (List Cell)}
    (h : CellsWF cols rows cells) (i : Nat) (hi : i < rows) :
    (cells.getD i []).length = cols := by
  have hlt : i < cells.length := by rw [h.1]; exact hi
  rw [List.getD_eq_getElem?_getD, List.getElem?_eq_getElem hlt]
  simp only [Option.getD_some]
  exact h.2 _ (List.getElem_mem hlt)

/-- Helper: `clearRange` does not change the width of a row. -/
theorem clearRange_length (row : List Cell) (lo len : Nat) :
    (clearRange row lo len).length = row.length := by
  unfold clearRange
  refine foldl_preserve (P := fun r : List Cell => r.length = row.length)
    ?_ _ row rfl
  intro r k hk
  rw [List.length_set]
  exact hk

/-- Helper: `scroll_up` keeps the grid well-formed. -/
theorem scroll_up_GridWF (g : TerminalGrid) (h : GridWF g) :
    GridWF g.scroll_up := by
  obtain ⟨hc, hr, hcr, hcc, hcells, hst, hsb, hsv1, hsv2⟩ := h
  exact ⟨hc, hr, hcr, hcc,
    cellsWF_erase_insert hcells g.scroll_top g.scroll_bottom hst (by omega) hr,
    hst, hsb, hsv1, hsv2⟩

/-- Helper: `scroll_down` keeps the grid well-formed. -/
theorem scroll_down_GridWF (g : TerminalGrid) (h : GridWF g) :
    GridWF g.scroll_down := by
  obtain ⟨hc, hr, hcr, hcc, hcells, hst, hsb, hsv1, hsv2⟩ := h
  exact ⟨hc, hr, hcr, hcc,
    cellsWF_erase_insert hcells g.scroll_bottom g.scroll_top hsb (by omega) hr,
    hst, hsb, hsv1, hsv2⟩

/-- Helper: a fold of `clear_row` calls only rewrites `cells`, and keeps
them well-formed. -/
theorem foldl_clear_row_spec (l : List Nat) (g : TerminalGrid) :
    ∃ cs : List (List Cell),
      l.foldl (fun h r => h.clear_row r) g = { g with cells := cs } ∧
      (CellsWF g.cols g.rows g.cells → CellsWF g.cols g.rows cs) := by
  induction l generalizing g with
  | nil => exact ⟨g.cells, rfl, fun h => h⟩
  | cons r t ih =>
    rw [List.foldl_cons]
    by_cases hcase : r < g.rows
    · have hcr : g.clear_row r =
          { g with cells := g.cells.set r (List.replicate g.cols Cell.default) } := by
        unfold TerminalGrid.clear_row
        rw [if_pos hcase]
      obtain ⟨cs, heq, hwf⟩ := ih (g.clear_row r)
      refine ⟨cs, by rw [heq, hcr], ?_⟩
      intro hwf0
      have := hwf (by
        rw [hcr]
        exact cellsWF_set hwf0 r (List.length_replicate _ _))
      rwa [hcr] at this
    · have hcr : g.clear_row r = g := by
        unfold TerminalGrid.clear_row
        rw [if_neg hcase]
      rw [hcr]
      exact ih g

/-- Helper: `erase_in_display` only rewrites `cells`, keeping them
well-formed, and leaves every other field unchanged. -/
theorem erase_in_display_spec (g : TerminalGrid) (mode : Nat)
    (hcr : g.cursor_row < g.rows) :
    ∃ cs : List (List Cell),
      g.erase_in_display mode = { g with cells := cs, dirty := true } ∧
      (CellsWF g.cols g.rows g.cells → CellsWF g.cols g.rows cs) := by
  unfold TerminalGrid.erase_in_display
  by_cases h0 : mode = 0
  · rw [if_pos h0]
    obtain ⟨cs, heq, hwf⟩ := foldl_clear_row_spec
      (List.range' (g.cursor_row + 1) (g.rows - (g.cursor_row + 1)))
      { g with
        cells := g.cells.set g.cursor_row
          (clearRange (g.cells.getD g.cursor_row []) g.cursor_col
            (g.cols - g.cursor_col)) }
    refine ⟨cs, by rw [heq], ?_⟩
    intro hwf0
    exact hwf (cellsWF_set hwf0 g.cursor_row
      ((clearRange_length _ _ _).trans (getD_row_length hwf0 _ hcr)))
  · rw [if_neg h0]
    by_cases h1 : mode = 1
    · rw [if_pos h1]
      obtain ⟨cs, heq, hwf⟩ := foldl_clear_row_spec (List.range g.cursor_row) g
      rw [heq]
      refine ⟨cs.set g.cursor_row
        (clearRange (cs.getD g.cursor_row []) 0
          (min g.cursor_col (g.cols - 1) + 1)), rfl, ?_⟩
      intro hwf0
      have hwfcs := hwf hwf0
      exact cellsWF_set hwfcs g.cursor_row
        ((clearRange_length _ _ _).trans (getD_row_length hwfcs _ hcr))
    · rw [if_neg h1]
      by_cases h2 : mode = 2 ∨ mode = 3
      · rw [if_pos h2]
        obtain ⟨cs, heq, hwf⟩ := foldl_clear_row_spec (List.range g.rows) g
        exact ⟨cs, by rw [heq], hwf⟩
      · rw [if_neg h2]
        exact ⟨g.cells, rfl, fun h => h⟩

/-- Helper: `erase_in_line` only rewrites `cells`, keeping them
well-formed, and leaves every other field unchanged. -/
theorem erase_in_line_spec (g : TerminalGrid) (mode : Nat)
    (hcr : g.cursor_row < g.rows) :
    ∃ cs : List (List Cell),
      g.erase_in_line mode = { g with cells := cs, dirty := true } ∧
      (CellsWF g.cols g.rows g.cells → CellsWF g.cols g.rows cs) := by
  unfold TerminalGrid.erase_in_line
  by_cases h0 : mode = 0
  · rw [if_pos h0]
    refine ⟨_, rfl, ?_⟩
    intro hwf0
    exact cellsWF_set hwf0 g.cursor_row
      ((clearRange_length _ _ _).trans (getD_row_length hwf0 _ hcr))
  · rw [if_neg h0]
    by_cases h1 : mode = 1
    · rw [if_pos h1]
      refine ⟨_, rfl, ?_⟩
      intro hwf0
      exact cellsWF_set hwf0 g.cursor_row
        ((clearRange_length _ _ _).trans (getD_row_length hwf0 _ hcr))
    · rw [if_neg h1]
      by_cases h2 : mode = 2
      · rw [if_pos h2]
        by_cases hcase : g.cursor_row < g.rows
        · have : g.clear_row g.cursor_row = { g with
              cells := g.cells.set g.cursor_row
                (List.replicate g.cols Cell.default) } := by
            unfold TerminalGrid.clear_row
            rw [if_pos hcase]
          rw [this]
          exact ⟨_, rfl, fun hwf0 =>
            cellsWF_set hwf0 g.cursor_row (List.length_replicate _ _)⟩
        · exact absurd hcr hcase
      · rw [if_neg h2]
        exact ⟨g.cells, rfl, fun h => h⟩

/-- Helper: `print` keeps the grid well-formed. -/
theorem print_GridWF (g : TerminalGrid) (ch : Char) (h : GridWF g) :
    GridWF (g.print ch) := by
  unfold TerminalGrid.print
  dsimp only
  have hmid : ∀ g1 : TerminalGrid, GridWF g1 →
      GridWF (if g1.cursor_row < g1.rows ∧ g1.cursor_col < g1.cols then
        { g1 with
          cells := g1.cells.set g1.cursor_row
            ((g1.cells.getD g1.cursor_row []).set g1.cursor_col
              (g1.new_cell ch))
          cursor_col := g1.cursor_col + 1 }
      else g1) := by
    intro g1 h1
    split
    · rename_i hcond
      obtain ⟨hc, hr, hcr, hcc, hcells, hst, hsb, hsv1, hsv2⟩ := h1
      refine ⟨hc, hr, hcr, hcond.2, ?_, hst, hsb, hsv1, hsv2⟩
      have hrow : ((g1.cells.getD g1.cursor_row []).set g1.cursor_col
          (g1.new_cell ch)).length = g1.cols := by
        rw [List.length_set]
        exact getD_row_length hcells _ hcond.1
      exact cellsWF_set hcells _ hrow
    · exact h1
  have hfin : ∀ g2 : TerminalGrid, GridWF g2 → GridWF { g2 with dirty := true } :=
    fun g2 h2 => h2
  obtain ⟨hc, hr, hcr, hcc, hcells, hst, hsb, hsv1, hsv2⟩ := h
  split
  · rename_i h1
    split
    · rename_i h2
      exact hfin _ (hmid _ (scroll_up_GridWF _
        ⟨hc, hr, hsb, Nat.zero_le _, hcells, hst, hsb, hsv1, hsv2⟩))
    · rename_i h2
      have h2a : ¬ g.scroll_bottom < g.cursor_row + 1 := h2
      exact hfin _ (hmid _
        ⟨hc, hr, by show g.cursor_row + 1 < g.rows; omega, Nat.zero_le _,
          hcells, hst, hsb, hsv1, hsv2⟩)
  · exact hfin _ (hmid _ ⟨hc, hr, hcr, hcc, hcells, hst, hsb, hsv1, hsv2⟩)

/-- Helper: `execute` keeps the grid well-formed. -/
theorem execute_GridWF (g : TerminalGrid) (byte : Nat) (h : GridWF g) :
    GridWF (g.execute byte) := by
  obtain ⟨hc, hr, hcr, hcc, hcells, hst, hsb, hsv1, hsv2⟩ := h
  unfold TerminalGrid.execute
  dsimp only
  have hfin : ∀ g2 : TerminalGrid, GridWF g2 → GridWF { g2 with dirty := true } :=
    fun g2 h2 => h2
  apply hfin
  split_ifs with h1 h2 h3 h4 h5 h6 h7
  · exact ⟨hc, hr, hcr, hcc, hcells, hst, hsb, hsv1, hsv2⟩
  · exact ⟨hc, hr, hcr, by show g.cursor_col - 1 ≤ g.cols; omega,
      hcells, hst, hsb, hsv1, hsv2⟩
  · exact ⟨hc, hr, hcr, hcc, hcells, hst, hsb, hsv1, hsv2⟩
  · exact ⟨hc, hr, hcr,
      by show min ((g.cursor_col / 8 + 1) * 8) (g.cols - 1) ≤ g.cols; omega,
      hcells, hst, hsb, hsv1, hsv2⟩
  · exact scroll_up_GridWF _
      ⟨hc, hr, hsb, hcc, hcells, hst, hsb, hsv1, hsv2⟩
  · have hns : ¬ g.scroll_bottom < g.cursor_row + 1 := h6
    exact ⟨hc, hr, by show g.cursor_row + 1 < g.rows; omega, hcc,
      hcells, hst, hsb, hsv1, hsv2⟩
  · exact ⟨hc, hr, hcr, Nat.zero_le _, hcells, hst, hsb, hsv1, hsv2⟩
  · exact ⟨hc, hr, hcr, hcc, hcells, hst, hsb, hsv1, hsv2⟩

/-- Helper: `esc_dispatch` keeps the grid well-formed. -/
theorem esc_dispatch_GridWF (g : TerminalGrid) (inter : List Nat) (byte : Nat)
    (h : GridWF g) : GridWF (g.esc_dispatch inter byte) := by
  obtain ⟨hc, hr, hcr, hcc, hcells, hst, hsb, hsv1, hsv2⟩ := h
  unfold TerminalGrid.esc_dispatch
  split_ifs with h1 h2 h3 h4
  · exact ⟨hc, hr, hcr, hcc, hcells, hst, hsb, hcr, hcc⟩
  · exact ⟨hc, hr, hsv1, hsv2, hcells, hst, hsb, hsv1, hsv2⟩
  · exact scroll_down_GridWF g
      ⟨hc, hr, hcr, hcc, hcells, hst, hsb, hsv1, hsv2⟩
  · exact ⟨hc, hr, by show g.cursor_row - 1 < g.rows; omega, hcc,
      hcells, hst, hsb, hsv1, hsv2⟩
  · exact ⟨hc, hr, hcr, hcc, hcells, hst, hsb, hsv1, hsv2⟩

/-- Helper: `csi_dispatch` keeps the grid well-formed. -/
theorem csi_dispatch_GridWF (g : TerminalGrid) (params : List (List Nat))
    (inter : List Nat) (action : Char) (h : GridWF g) :
    GridWF (g.csi_dispatch params inter action) := by
  obtain ⟨hc, hr, hcr, hcc, hcells, hst, hsb, hsv1, hsv2⟩ := h
  have hbase : GridWF g := ⟨hc, hr, hcr, hcc, hcells, hst, hsb, hsv1, hsv2⟩
  unfold TerminalGrid.csi_dispatch
  dsimp only
  by_cases k1 : action = 'A'
  · rw [if_pos k1]
    exact ⟨hc, hr, by show g.cursor_row - _ < g.rows; omega, hcc, hcells, hst, hsb, hsv1, hsv2⟩
  · rw [if_neg k1]
    by_cases k2 : action = 'B'
    · rw [if_pos k2]
      exact ⟨hc, hr, by show min (g.cursor_row + _) (g.rows - 1) < g.rows; omega, hcc, hcells, hst, hsb, hsv1, hsv2⟩
    · rw [if_neg k2]
      by_cases k3 : action = 'C'
      · rw [if_pos k3]
        exact ⟨hc, hr, hcr, by show min (g.cursor_col + _) (g.cols - 1) ≤ g.cols; omega, hcells, hst, hsb, hsv1, hsv2⟩
      · rw [if_neg k3]
        by_cases k4 : action = 'D'
        · rw [if_pos k4]
          exact ⟨hc, hr, hcr, by show g.cursor_col - _ ≤ g.cols; omega, hcells, hst, hsb, hsv1, hsv2⟩
        · rw [if_neg k4]
          by_cases k5 : action = 'E'
          · rw [if_pos k5]
            exact ⟨hc, hr, by show min (g.cursor_row + _) (g.rows - 1) < g.rows; omega, Nat.zero_le _, hcells, hst, hsb, hsv1, hsv2⟩
          · rw [if_neg k5]
            by_cases k6 : action = 'F'
            · rw [if_pos k6]
              exact ⟨hc, hr, by show g.cursor_row - _ < g.rows; omega, Nat.zero_le _, hcells, hst, hsb, hsv1, hsv2⟩
            · rw [if_neg k6]
              by_cases k7 : action = 'G'
              · rw [if_pos k7]
                exact ⟨hc, hr, hcr, by show min _ (g.cols - 1) ≤ g.cols; omega, hcells, hst, hsb, hsv1, hsv2⟩
              · rw [if_neg k7]
                by_cases k8 : action = 'H' ∨ action = 'f'
                · rw [if_pos k8]
                  exact ⟨hc, hr, by show min _ (g.rows - 1) < g.rows; omega, by show min _ (g.cols - 1) ≤ g.cols; omega, hcells, hst, hsb, hsv1, hsv2⟩
                · rw [if_neg k8]
                  by_cases k9 : action = 'J'
                  · rw [if_pos k9]
                    obtain ⟨cs, heq, hwf⟩ := erase_in_display_spec g ((params.head?.bind List.head?).getD 0) hcr
                    rw [heq]
                    exact ⟨hc, hr, hcr, hcc, hwf hcells, hst, hsb, hsv1, hsv2⟩
                  · rw [if_neg k9]
                    by_cases k10 : action = 'K'
                    · rw [if_pos k10]
                      obtain ⟨cs, heq, hwf⟩ := erase_in_line_spec g ((params.head?.bind List.head?).getD 0) hcr
                      rw [heq]
                      exact ⟨hc, hr, hcr, hcc, hwf hcells, hst, hsb, hsv1, hsv2⟩
                    · rw [if_neg k10]
                      by_cases k11 : action = 'L'
                      · rw [if_pos k11]
                        refine ⟨hc, hr, hcr, hcc, ?_, hst, hsb, hsv1, hsv2⟩
                        show CellsWF g.cols g.rows _
                        refine iterN_preserve ?_ _ _ hcells
                        intro cs hcs
                        split
                        · exact cellsWF_erase_insert hcs g.scroll_bottom g.cursor_row hsb (by omega) hr
                        · exact hcs
                      · rw [if_neg k11]
                        by_cases k12 : action = 'M'
                        · rw [if_pos k12]
                          refine ⟨hc, hr, hcr, hcc, ?_, hst, hsb, hsv1, hsv2⟩
                          show CellsWF g.cols g.rows _
                          refine iterN_preserve ?_ _ _ hcells
                          intro cs hcs
                          split
                          · exact cellsWF_erase_insert hcs g.cursor_row g.scroll_bottom hcr (by omega) hr
                          · exact hcs
                        · rw [if_neg k12]
                          by_cases k13 : action = 'P'
                          · rw [if_pos k13]
                            refine ⟨hc, hr, hcr, hcc, ?_, hst, hsb, hsv1, hsv2⟩
                            show CellsWF g.cols g.rows _
                            refine cellsWF_set hcells _ ?_
                            refine iterN_preserve (P := fun r : List Cell => r.length = g.cols) ?_ _ _ (getD_row_length hcells _ hcr)
                            intro r hrl
                            split
                            · rename_i hin
                              rw [List.length_append, List.length_eraseIdx, if_pos hin]
                              simp only [List.length_cons, List.length_nil]
                              omega
                            · exact hrl
                          · rw [if_neg k13]
                            by_cases k14 : action = 'S'
                            · rw [if_pos k14]
                              exact iterN_preserve scroll_up_GridWF _ g hbase
                            · rw [if_neg k14]
                              by_cases k15 : action = 'T'
                              · rw [if_pos k15]
                                exact iterN_preserve scroll_down_GridWF _ g hbase
                              · rw [if_neg k15]
                                by_cases k16 : action = '@'
                                · rw [if_pos k16]
                                  refine ⟨hc, hr, hcr, hcc, ?_, hst, hsb, hsv1, hsv2⟩
                                  show CellsWF g.cols g.rows _
                                  refine cellsWF_set hcells _ ?_
                                  refine iterN_preserve (P := fun r : List Cell => r.length = g.cols) ?_ _ _ (getD_row_length hcells _ hcr)
                                  intro r hrl
                                  by_cases hin : g.cursor_col ≤ r.length
                                  · rw [List.length_take, List.length_insertIdx _ _ hin, hrl]
                                    omega
                                  · rw [List.insertIdx_of_length_lt _ _ _ (by omega), List.length_take, hrl]
                                    omega
                                · rw [if_neg k16]
                                  by_cases k17 : action = 'm'
                                  · rw [if_pos k17]
                                    show GridWF (g.handle_sgr params)
                                    unfold TerminalGrid.handle_sgr
                                    dsimp only
                                    split
                                    · exact ⟨hc, hr, hcr, hcc, hcells, hst, hsb, hsv1, hsv2⟩
                                    · exact ⟨hc, hr, hcr, hcc, hcells, hst, hsb, hsv1, hsv2⟩
                                  · rw [if_neg k17]
                                    by_cases k18 : action = 'r'
                                    · rw [if_pos k18]
                                      exact ⟨hc, hr, hr, Nat.zero_le _, hcells, by show min _ (g.rows - 1) < g.rows; omega, by show min _ (g.rows - 1) < g.rows; omega, hsv1, hsv2⟩
                                    · rw [if_neg k18]
                                      by_cases k19 : action = 'h' ∧ inter = [0x3F]
                                      · rw [if_pos k19]
                                        refine foldl_preserve ?_ params g hbase
                                        intro a sub ha
                                        obtain ⟨ac, ar, acr, acc, acells, ast, asb, asv1, asv2⟩ := ha
                                        split_ifs
                                        · exact ⟨ac, ar, acr, acc, acells, ast, asb, asv1, asv2⟩
                                        · exact ⟨ac, ar, acr, acc, acells, ast, asb, asv1, asv2⟩
                                        · exact ⟨ac, ar, acr, acc, acells, ast, asb, asv1, asv2⟩
                                        · exact ⟨ac, ar, acr, acc, acells, ast, asb, asv1, asv2⟩
                                        · exact ⟨ac, ar, acr, acc, acells, ast, asb, asv1, asv2⟩
                                      · rw [if_neg k19]
                                        by_cases k20 : action = 'l' ∧ inter = [0x3F]
                                        · rw [if_pos k20]
                                          refine foldl_preserve ?_ params g hbase
                                          intro a sub ha
                                          obtain ⟨ac, ar, acr, acc, acells, ast, asb, asv1, asv2⟩ := ha
                                          split_ifs
                                          · exact ⟨ac, ar, acr, acc, acells, ast, asb, asv1, asv2⟩
                                          · exact ⟨ac, ar, acr, acc, acells, ast, asb, asv1, asv2⟩
                                          · exact ⟨ac, ar, acr, acc, acells, ast, asb, asv1, asv2⟩
                                          · exact ⟨ac, ar, acr, acc, acells, ast, asb, asv1, asv2⟩
                                          · exact ⟨ac, ar, acr, acc, acells, ast, asb, asv1, asv2⟩
                                        · rw [if_neg k20]
                                          exact hbase

/-- Helper: `csi_dispatch` never changes the grid dimensions. -/
theorem csi_dispatch_dims (g : TerminalGrid) (params : List (List Nat))
    (inter : List Nat) (action : Char) (hcr : g.cursor_row < g.rows) :
    (g.csi_dispatch params inter action).cols = g.cols ∧
    (g.csi_dispatch params inter action).rows = g.rows := by
  unfold TerminalGrid.csi_dispatch
  dsimp only
  by_cases k1 : action = 'A'
  · rw [if_pos k1]
    exact ⟨rfl, rfl⟩
  · rw [if_neg k1]
    by_cases k2 : action = 'B'
    · rw [if_pos k2]
      exact ⟨rfl, rfl⟩
    · rw [if_neg k2]
      by_cases k3 : action = 'C'
      · rw [if_pos k3]
        exact ⟨rfl, rfl⟩
      · rw [if_neg k3]
        by_cases k4 : action = 'D'
        · rw [if_pos k4]
          exact ⟨rfl, rfl⟩
        · rw [if_neg k4]
          by_cases k5 : action = 'E'
          · rw [if_pos k5]
            exact ⟨rfl, rfl⟩
          · rw [if_neg k5]
            by_cases k6 : action = 'F'
            · rw [if_pos k6]
              exact ⟨rfl, rfl⟩
            · rw [if_neg k6]
              by_cases k7 : action = 'G'
              · rw [if_pos k7]
                exact ⟨rfl, rfl⟩
              · rw [if_neg k7]
                by_cases k8 : action = 'H' ∨ action = 'f'
                · rw [if_pos k8]
                  exact ⟨rfl, rfl⟩
                · rw [if_neg k8]
                  by_cases k9 : action = 'J'
                  · rw [if_pos k9]
                    obtain ⟨cs, heq, hwf⟩ := erase_in_display_spec g ((params.head?.bind List.head?).getD 0) hcr
                    rw [heq]
                    exact ⟨rfl, rfl⟩
                  · rw [if_neg k9]
                    by_cases k10 : action = 'K'
                    · rw [if_pos k10]
                      obtain ⟨cs, heq, hwf⟩ := erase_in_line_spec g ((params.head?.bind List.head?).getD 0) hcr
                      rw [heq]
                      exact ⟨rfl, rfl⟩
                    · rw [if_neg k10]
                      by_cases k11 : action = 'L'
                      · rw [if_pos k11]
                        exact ⟨rfl, rfl⟩
                      · rw [if_neg k11]
                        by_cases k12 : action = 'M'
                        · rw [if_pos k12]
                          exact ⟨rfl, rfl⟩
                        · rw [if_neg k12]
                          by_cases k13 : action = 'P'
                          · rw [if_pos k13]
                            exact ⟨rfl, rfl⟩
                          · rw [if_neg k13]
                            by_cases k14 : action = 'S'
                            · rw [if_pos k14]
                              exact iterN_preserve (f := TerminalGrid.scroll_up) (P := fun h2 : TerminalGrid => h2.cols = g.cols ∧ h2.rows = g.rows) (fun a ha => ⟨ha.1, ha.2⟩) _ g ⟨rfl, rfl⟩
                            · rw [if_neg k14]
                              by_cases k15 : action = 'T'
                              · rw [if_pos k15]
                                exact iterN_preserve (f := TerminalGrid.scroll_down) (P := fun h2 : TerminalGrid => h2.cols = g.cols ∧ h2.rows = g.rows) (fun a ha => ⟨ha.1, ha.2⟩) _ g ⟨rfl, rfl⟩
                              · rw [if_neg k15]
                                by_cases k16 : action = '@'
                                · rw [if_pos k16]
                                  exact ⟨rfl, rfl⟩
                                · rw [if_neg k16]
                                  by_cases k17 : action = 'm'
                                  · rw [if_pos k17]
                                    show (g.handle_sgr params).cols = g.cols ∧ (g.handle_sgr params).rows = g.rows
                                    unfold TerminalGrid.handle_sgr
                                    dsimp only
                                    split
                                    · exact ⟨rfl, rfl⟩
                                    · exact ⟨rfl, rfl⟩
                                  · rw [if_neg k17]
                                    by_cases k18 : action = 'r'
                                    · rw [if_pos k18]
                                      exact ⟨rfl, rfl⟩
                                    · rw [if_neg k18]
                                      by_cases k19 : action = 'h' ∧ inter = [0x3F]
                                      · rw [if_pos k19]
                                        refine foldl_preserve (P := fun h2 : TerminalGrid => h2.cols = g.cols ∧ h2.rows = g.rows) ?_ params g ⟨rfl, rfl⟩
                                        intro a sub ha
                                        split_ifs
                                        · exact ⟨ha.1, ha.2⟩
                                        · exact ⟨ha.1, ha.2⟩
                                        · exact ⟨ha.1, ha.2⟩
                                        · exact ⟨ha.1, ha.2⟩
                                        · exact ⟨ha.1, ha.2⟩
                                      · rw [if_neg k19]
                                        by_cases k20 : action = 'l' ∧ inter = [0x3F]
                                        · rw [if_pos k20]
                                          refine foldl_preserve (P := fun h2 : TerminalGrid => h2.cols = g.cols ∧ h2.rows = g.rows) ?_ params g ⟨rfl, rfl⟩
                                          intro a sub ha
                                          split_ifs
                                          · exact ⟨ha.1, ha.2⟩
                                          · exact ⟨ha.1, ha.2⟩
                                          · exact ⟨ha.1, ha.2⟩
                                          · exact ⟨ha.1, ha.2⟩
                                          · exact ⟨ha.1, ha.2⟩
                                        · rw [if_neg k20]
                                          exact ⟨rfl, rfl⟩

/-- Helper: `print` never changes the grid dimensions. -/
theorem print_dims (g : TerminalGrid) (ch : Char) :
    (g.print ch).cols = g.cols ∧ (g.print ch).rows = g.rows := by
  unfold TerminalGrid.print
  dsimp only
  split_ifs <;> exact ⟨rfl, rfl⟩

/-- Helper: `execute` never changes the grid dimensions. -/
theorem execute_dims (g : TerminalGrid) (byte : Nat) :
    (g.execute byte).cols = g.cols ∧ (g.execute byte).rows = g.rows := by
  unfold TerminalGrid.execute
  dsimp only
  split_ifs <;> exact ⟨rfl, rfl⟩

/-- Helper: `esc_dispatch` never changes the grid dimensions. -/
theorem esc_dispatch_dims (g : TerminalGrid) (inter : List Nat) (byte : Nat) :
    (g.esc_dispatch inter byte).cols = g.cols ∧
    (g.esc_dispatch inter byte).rows = g.rows := by
  unfold TerminalGrid.esc_dispatch
  split_ifs <;> exact ⟨rfl, rfl⟩

/-- Helper: no parser event changes the grid dimensions. -/
theorem step_dims (g : TerminalGrid) (e : Event) (hcr : g.cursor_row < g.rows) :
    (step g e).cols = g.cols ∧ (step g e).rows = g.rows := by
  cases e with
  | print c => exact print_dims g c
  | execute b => exact execute_dims g b
  | csi p i a => exact csi_dispatch_dims g p i a hcr
  | esc i b => exact esc_dispatch_dims g i b
  | osc p => exact ⟨rfl, rfl⟩

/-- Helper: every parser event keeps the grid well-formed. -/
theorem step_GridWF (g : TerminalGrid) (e : Event) (h : GridWF g) :
    GridWF (step g e) := by
  cases e with
  | print c => exact print_GridWF g c h
  | execute b => exact execute_GridWF g b h
  | csi p i a => exact csi_dispatch_GridWF g p i a h
  | esc i b => exact esc_dispatch_GridWF g i b h
  | osc p => exact h

/-- Helper: a freshly created grid is well-formed. -/
theorem new_GridWF (cols rows : Nat) (hc : 0 < cols) (hr : 0 < rows) :
    GridWF (TerminalGrid.new cols rows) := by
  unfold GridWF CellsWF TerminalGrid.new
  dsimp only
  refine ⟨hc, hr, hr, Nat.zero_le _, ⟨List.length_replicate _ _, ?_⟩,
    by omega, by omega, hr, Nat.zero_le _⟩
  intro r hrm
  rw [List.eq_of_mem_replicate hrm]
  exact List.length_replicate _ _



/-- Helper: `scroll_up` with a nonzero `scroll_top` leaves scrollback
unchanged. -/
theorem scroll_up_scrollback_of_pos (g : TerminalGrid)
    (h : 0 < g.scroll_top) : (g.scroll_up).scrollback = g.scrollback := by
  unfold TerminalGrid.scroll_up
  dsimp only
  rw [if_neg (by omega)]

/-- Helper: `scroll_up` with `scroll_top = 0` pushes the removed row with
the spec's capped-push contract. -/
theorem scroll_up_scrollback_of_zero (g : TerminalGrid)
    (h : g.scroll_top = 0) :
    (g.scroll_up).scrollback =
      scrollbackPushSpec g.scrollback (g.cells.getD g.scroll_top []) := by
  unfold TerminalGrid.scroll_up scrollbackPushSpec
  dsimp only
  rw [if_pos h]

/-- Helper: `scroll_up` keeps the scrollback within the cap. -/
theorem scroll_up_scrollback_le (g : TerminalGrid)
    (h2le : g.scrollback.length ≤ MAX_SCROLLBACK) :
    (g.scroll_up).scrollback.length ≤ MAX_SCROLLBACK := by
  unfold TerminalGrid.scroll_up
  dsimp only
  split
  · split
    · rename_i hmax
      rw [List.length_eraseIdx,
        if_pos (by simp only [List.length_append, List.length_singleton]; omega)]
      simp only [List.length_append, List.length_singleton] at hmax ⊢
      omega
    · rename_i hmax
      omega
  · exact h2le

/-- Helper: `print` keeps the scrollback within the cap. -/
theorem print_scrollback_le (g : TerminalGrid) (ch : Char)
    (h2le : g.scrollback.length ≤ MAX_SCROLLBACK) :
    (g.print ch).scrollback.length ≤ MAX_SCROLLBACK := by
  unfold TerminalGrid.print
  dsimp only
  split_ifs <;> first | exact h2le | exact scroll_up_scrollback_le _ h2le

/-- Helper: `execute` keeps the scrollback within the cap. -/
theorem execute_scrollback_le (g : TerminalGrid) (byte : Nat)
    (h2le : g.scrollback.length ≤ MAX_SCROLLBACK) :
    (g.execute byte).scrollback.length ≤ MAX_SCROLLBACK := by
  unfold TerminalGrid.execute
  dsimp only
  split_ifs <;> first | exact h2le | exact scroll_up_scrollback_le _ h2le

/-- Helper: `esc_dispatch` keeps the scrollback within the cap. -/
theorem esc_dispatch_scrollback_le (g : TerminalGrid) (inter : List Nat)
    (byte : Nat) (h2le : g.scrollback.length ≤ MAX_SCROLLBACK) :
    (g.esc_dispatch inter byte).scrollback.length ≤ MAX_SCROLLBACK := by
  unfold TerminalGrid.esc_dispatch
  split_ifs <;> exact h2le

/-- Helper: `csi_dispatch` keeps the scrollback within the cap. -/
theorem csi_dispatch_scrollback_le (g : TerminalGrid)
    (params : List (List Nat)) (inter : List Nat) (action : Char)
    (hcr : g.cursor_row < g.rows)
    (h2le : g.scrollback.length ≤ MAX_SCROLLBACK) :
    (g.csi_dispatch params inter action).scrollback.length ≤ MAX_SCROLLBACK := by
  unfold TerminalGrid.csi_dispatch
  dsimp only
  by_cases k1 : action = 'A'
  · rw [if_pos k1]
    exact h2le
  · rw [if_neg k1]
    by_cases k2 : action = 'B'
    · rw [if_pos k2]
      exact h2le
    · rw [if_neg k2]
      by_cases k3 : action = 'C'
      · rw [if_pos k3]
        exact h2le
      · rw [if_neg k3]
        by_cases k4 : action = 'D'
        · rw [if_pos k4]
          exact h2le
        · rw [if_neg k4]
          by_cases k5 : action = 'E'
          · rw [if_pos k5]
            exact h2le
          · rw [if_neg k5]
            by_cases k6 : action = 'F'
            · rw [if_pos k6]
              exact h2le
            · rw [if_neg k6]
              by_cases k7 : action = 'G'
              · rw [if_pos k7]
                exact h2le
              · rw [if_neg k7]
                by_cases k8 : action = 'H' ∨ action = 'f'
                · rw [if_pos k8]
                  exact h2le
                · rw [if_neg k8]
                  by_cases k9 : action = 'J'
                  · rw [if_pos k9]
                    obtain ⟨cs, heq, hwf2⟩ := erase_in_display_spec g ((params.head?.bind List.head?).getD 0) hcr
                    rw [heq]
                    exact h2le
                  · rw [if_neg k9]
                    by_cases k10 : action = 'K'
                    · rw [if_pos k10]
                      obtain ⟨cs, heq, hwf2⟩ := erase_in_line_spec g ((params.head?.bind List.head?).getD 0) hcr
                      rw [heq]
                      exact h2le
                    · rw [if_neg k10]
                      by_cases k11 : action = 'L'
                      · rw [if_pos k11]
                        exact h2le
                      · rw [if_neg k11]
                        by_cases k12 : action = 'M'
                        · rw [if_pos k12]
                          exact h2le
                        · rw [if_neg k12]
                          by_cases k13 : action = 'P'
                          · rw [if_pos k13]
                            exact h2le
                          · rw [if_neg k13]
                            by_cases k14 : action = 'S'
                            · rw [if_pos k14]
                              exact iterN_preserve (f := TerminalGrid.scroll_up) (P := fun a : TerminalGrid => a.scrollback.length ≤ MAX_SCROLLBACK) scroll_up_scrollback_le _ g h2le
                            · rw [if_neg k14]
                              by_cases k15 : action = 'T'
                              · rw [if_pos k15]
                                exact iterN_preserve (f := TerminalGrid.scroll_down) (P := fun a : TerminalGrid => a.scrollback.length ≤ MAX_SCROLLBACK) (fun a ha => ha) _ g h2le
                              · rw [if_neg k15]
                                by_cases k16 : action = '@'
                                · rw [if_pos k16]
                                  exact h2le
                                · rw [if_neg k16]
                                  by_cases k17 : action = 'm'
                                  · rw [if_pos k17]
                                    show (g.handle_sgr params).scrollback.length ≤ MAX_SCROLLBACK
                                    unfold TerminalGrid.handle_sgr
                                    dsimp only
                                    split
                                    · exact h2le
                                    · exact h2le
                                  · rw [if_neg k17]
                                    by_cases k18 : action = 'r'
                                    · rw [if_pos k18]
                                      exact h2le
                                    · rw [if_neg k18]
                                      by_cases k19 : action = 'h' ∧ inter = [0x3F]
                                      · rw [if_pos k19]
                                        refine foldl_preserve (P := fun a : TerminalGrid => a.scrollback.length ≤ MAX_SCROLLBACK) ?_ params g h2le
                                        intro a sub ha
                                        split_ifs
                                        · exact ha
                                        · exact ha
                                        · exact ha
                                        · exact ha
                                        · exact ha
                                      · rw [if_neg k19]
                                        by_cases k20 : action = 'l' ∧ inter = [0x3F]
                                        · rw [if_pos k20]
                                          refine foldl_preserve (P := fun a : TerminalGrid => a.scrollback.length ≤ MAX_SCROLLBACK) ?_ params g h2le
                                          intro a sub ha
                                          split_ifs
                                          · exact ha
                                          · exact ha
                                          · exact ha
                                          · exact ha
                                          · exact ha
                                        · rw [if_neg k20]
                                          exact h2le

/-- Helper: no parser event pushes the scrollback past the cap. -/
theorem step_scrollback_le (g : TerminalGrid) (e : Event)
    (hcr : g.cursor_row < g.rows)
    (h2le : g.scrollback.length ≤ MAX_SCROLLBACK) :
    (step g e).scrollback.length ≤ MAX_SCROLLBACK := by
  cases e with
  | print c => exact print_scrollback_le g c h2le
  | execute b => exact execute_scrollback_le g b h2le
  | csi p i a => exact csi_dispatch_scrollback_le g p i a hcr h2le
  | esc i b => exact esc_dispatch_scrollback_le g i b h2le
  | osc p => exact h2le


/-- Helper: running any event sequence from a well-formed grid keeps it
well-formed and preserves the dimensions. -/
theorem run_GridWF_dims (g : TerminalGrid) (es : List Event) (h : GridWF g) :
    GridWF (run g es) ∧ (run g es).cols = g.cols ∧ (run g es).rows = g.rows := by
  unfold run
  refine foldl_preserve
    (P := fun a : TerminalGrid => GridWF a ∧ a.cols = g.cols ∧ a.rows = g.rows)
    ?_ es g ⟨h, rfl, rfl⟩
  intro a e ha
  have hd := step_dims a e ha.1.2.2.1
  exact ⟨step_GridWF a e ha.1, hd.1.trans ha.2.1, hd.2.trans ha.2.2⟩

/-- **C1 counterexample.**  After `CSI 5;2 r` (DECSTBM with first parameter
greater than the second) on a fresh 10×10 grid, `scroll_top = 4` and
`scroll_bottom = 1`, so the claimed invariant `scroll_top ≤ scroll_bottom`
fails: the code clamps the two bounds independently and never compares
them. -/
theorem C1_counterexample :
    ¬ ((run (TerminalGrid.new 10 10) [Event.csi [[5], [2]] [] 'r']).scroll_top ≤
      (run (TerminalGrid.new 10 10) [Event.csi [[5], [2]] [] 'r']).scroll_bottom) := by
  decide

/-- **C1 (amended).**  For every sequence of parser events fed into a
`TerminalGrid` created with `cols ≥ 1` and `rows ≥ 1`: `cursor_row < rows`,
`cursor_col ≤ cols`, `cells.len() == rows`, every row has exactly `cols`
cells, and `scroll_top < rows` and `scroll_bottom < rows` — but not
`scroll_top ≤ scroll_bottom`, which `CSI r` with first parameter greater
than the second violates. -/
theorem C1_grid_bounds (cols rows : Nat) (hc : 1 ≤ cols) (hr : 1 ≤ rows)
    (es : List Event) :
    (run (TerminalGrid.new cols rows) es).cursor_row < rows ∧
    (run (TerminalGrid.new cols rows) es).cursor_col ≤ cols ∧
    (run (TerminalGrid.new cols rows) es).cells.length = rows ∧
    (∀ r ∈ (run (TerminalGrid.new cols rows) es).cells, r.length = cols) ∧
    (run (TerminalGrid.new cols rows) es).scroll_top < rows ∧
    (run (TerminalGrid.new cols rows) es).scroll_bottom < rows := by
  obtain ⟨hwf, hdc, hdr⟩ := run_GridWF_dims (TerminalGrid.new cols rows) es
    (new_GridWF cols rows hc hr)
  have hdc2 : (run (TerminalGrid.new cols rows) es).cols = cols := hdc
  have hdr2 : (run (TerminalGrid.new cols rows) es).rows = rows := hdr
  obtain ⟨-, -, hicr, hicc, hicells, hist, hisb, -, -⟩ := hwf
  rw [hdr2] at hicr hist hisb
  rw [hdc2] at hicc
  rw [hdc2, hdr2] at hicells
  exact ⟨hicr, hicc, hicells.1, hicells.2, hist, hisb⟩

/-- Witness for C1: a print, a line feed and a cursor move on a 3×2 grid
land within bounds. -/
theorem C1_grid_bounds_witness :
    (run (TerminalGrid.new 3 2)
      [Event.print 'a', Event.execute 0x0A,
        Event.csi [[2], [3]] [] 'H']).cursor_row < 2 ∧
    (run (TerminalGrid.new 3 2)
      [Event.print 'a', Event.execute 0x0A,
        Event.csi [[2], [3]] [] 'H']).cursor_col ≤ 3 ∧
    (run (TerminalGrid.new 3 2)
      [Event.print 'a', Event.execute 0x0A,
        Event.csi [[2], [3]] [] 'H']).cells.length = 2 ∧
    (∀ r ∈ (run (TerminalGrid.new 3 2)
      [Event.print 'a', Event.execute 0x0A,
        Event.csi [[2], [3]] [] 'H']).cells, r.length = 3) ∧
    (run (TerminalGrid.new 3 2)
      [Event.print 'a', Event.execute 0x0A,
        Event.csi [[2], [3]] [] 'H']).scroll_top < 2 ∧
    (run (TerminalGrid.new 3 2)
      [Event.print 'a', Event.execute 0x0A,
        Event.csi [[2], [3]] [] 'H']).scroll_bottom < 2 :=
  C1_grid_bounds 3 2 (by decide) (by decide)
    [Event.print 'a', Event.execute 0x0A, Event.csi [[2], [3]] [] 'H']



/-- **C6.**  Rows are pushed onto scrollback only by a scroll-up performed
while `scroll_top == 0`; a scroll-up with `scroll_top > 0` leaves scrollback
unchanged; a push that would exceed `MAX_SCROLLBACK` drops the oldest entry;
and so `scrollback.len() ≤ MAX_SCROLLBACK` holds after any sequence of
parser events. -/
theorem C6_scrollback_cap :
    (∀ g : TerminalGrid, 0 < g.scroll_top →
      (g.scroll_up).scrollback = g.scrollback) ∧
    (∀ g : TerminalGrid, g.scroll_top = 0 →
      (g.scroll_up).scrollback =
        scrollbackPushSpec g.scrollback (g.cells.getD g.scroll_top [])) ∧
    (∀ (sb : List (List Cell)) (row : List Cell),
      MAX_SCROLLBACK < (sb ++ [row]).length →
      scrollbackPushSpec sb row = (sb ++ [row]).eraseIdx 0) ∧
    (∀ (cols rows : Nat) (es : List Event), 1 ≤ cols → 1 ≤ rows →
      (run (TerminalGrid.new cols rows) es).scrollback.length ≤
        MAX_SCROLLBACK) := by
  refine ⟨scroll_up_scrollback_of_pos, scroll_up_scrollback_of_zero, ?_, ?_⟩
  · intro sb row hlen
    unfold scrollbackPushSpec
    dsimp only
    rw [if_pos hlen]
  · intro cols rows es hcols hrows
    have hfold := foldl_preserve
      (P := fun a : TerminalGrid =>
        GridWF a ∧ a.scrollback.length ≤ MAX_SCROLLBACK)
      (fun a e ha => ⟨step_GridWF a e ha.1,
        step_scrollback_le a e ha.1.2.2.1 ha.2⟩)
      es (TerminalGrid.new cols rows)
      ⟨new_GridWF cols rows hcols hrows, Nat.zero_le _⟩
    exact hfold.2

/-- Witness for C6: one line feed on a 2×2 grid stays within the cap. -/
theorem C6_scrollback_cap_witness :
    (run (TerminalGrid.new 2 2) [Event.execute 0x0A]).scrollback.length ≤
      MAX_SCROLLBACK :=
  C6_scrollback_cap.2.2.2 2 2 [Event.execute 0x0A] (by decide) (by decide)

/-- **C7.**  With an active mouse mode and SGR extended encoding enabled,
`mouse_report(b, m, col, row, pressed)` appends to `pending_writes` exactly
the ASCII bytes of `ESC [ < {b|m} ; {col+1} ; {row+1}` followed by `M` when
pressed and `m` when released, with `col` and `row` first clamped into the
grid. -/
theorem C7_mouse_report_sgr (g : TerminalGrid) (button modifiers col row : Nat)
    (pressed : Bool) (hmode : g.mouse_mode ≠ MouseMode.none)
    (hsgr : g.mouse_sgr = true) :
    (g.mouse_report button modifiers col row pressed).pending_writes =
      g.pending_writes ++
        ("\x1b[<" ++ toString (Nat.lor button modifiers) ++ ";" ++
          toString (min col (g.cols - 1) + 1) ++ ";" ++
          toString (min row (g.rows - 1) + 1)).data ++
        [if pressed then 'M' else 'm'] := by
  unfold TerminalGrid.mouse_report
  rw [if_neg (by simp [hmode, hsgr])]
  dsimp only
  rw [List.append_assoc]
  refine congrArg (g.pending_writes ++ ·) ?_
  simp only [String.data_append]
  cases pressed <;> rfl

/-- Witness for C7: after DECSET 1000;1006 on an 80×24 grid, a left press
with shift at 0-based cell (4, 9) emits `ESC[<4;5;10M`, and the release
then appends `ESC[<4;5;10m`. -/
theorem C7_mouse_report_sgr_witness :
    ((step (TerminalGrid.new 80 24)
        (Event.csi [[1000], [1006]] [0x3F] 'h')).mouse_report 0 4 4 9
          true).pending_writes = "\x1b[<4;5;10M".data ∧
    (((step (TerminalGrid.new 80 24)
        (Event.csi [[1000], [1006]] [0x3F] 'h')).mouse_report 0 4 4 9
          true).mouse_report 0 4 4 9 false).pending_writes =
      ("\x1b[<4;5;10M" ++ "\x1b[<4;5;10m").data := by
  constructor
  · exact (C7_mouse_report_sgr _ 0 4 4 9 true (by decide) (by decide)).trans
      (by decide)
  · exact (C7_mouse_report_sgr _ 0 4 4 9 false (by decide) (by decide)).trans
      (by decide)

/-- Helper: a no-wrap print writes the new cell at the cursor position. -/
theorem print_writes_cell (g : TerminalGrid) (c : Char)
    (hcr : g.cursor_row < g.rows) (hcells : CellsWF g.cols g.rows g.cells)
    (hcol : g.cursor_col < g.cols) :
    ((g.print c).cells.getD g.cursor_row []).getD g.cursor_col Cell.default =
      g.new_cell c := by
  unfold TerminalGrid.print
  dsimp only
  rw [if_neg (c := g.cols ≤ g.cursor_col) (by omega)]
  rw [if_pos ⟨hcr, hcol⟩]
  dsimp only
  have hlen : g.cursor_row < g.cells.length := by
    rw [hcells.1]
    exact hcr
  simp only [List.getD_eq_getElem?_getD]
  rw [List.getElem?_set_self hlen]
  simp only [Option.getD_some]
  rw [List.getElem?_set_self
    (by rw [← List.getD_eq_getElem?_getD, getD_row_length hcells _ hcr]
        exact hcol)]
  simp only [Option.getD_some]

/-- **C8.**  After `ESC [ 38;2;r;g;b m` followed by a printable character,
the written cell's foreground equals `(r/255, g/255, b/255, 1)`; after
`ESC [ 0 m` followed by a printable character, the written cell's
foreground equals the default opaque white `(1, 1, 1, 1)`. -/
theorem C8_truecolor_roundtrip (g : TerminalGrid) (c : Char) (r gr b : Nat)
    (hwf : GridWF g) (hcol : g.cursor_col < g.cols) (hr255 : r ≤ 255)
    (hg255 : gr ≤ 255) (hb255 : b ≤ 255) :
    (((run g [Event.csi [[38], [2], [r], [gr], [b]] [] 'm',
        Event.print c]).cells.getD g.cursor_row []).getD g.cursor_col
          Cell.default).fg =
      ((r : ℚ) / 255, (gr : ℚ) / 255, (b : ℚ) / 255, 1) ∧
    (((run g [Event.csi [[0]] [] 'm',
        Event.print c]).cells.getD g.cursor_row []).getD g.cursor_col
          Cell.default).fg = (1, 1, 1, 1) := by
  obtain ⟨hc, hrows, hcr, hcc, hcells, hst, hsb, hsv1, hsv2⟩ := hwf
  constructor
  · exact (congrArg Cell.fg (print_writes_cell
      (g.setAttrs { g.attrs with
        cur_fg := ((r : ℚ) / 255, (gr : ℚ) / 255, (b : ℚ) / 255, 1) })
      c hcr hcells hcol)).trans rfl
  · exact (congrArg Cell.fg (print_writes_cell (g.setAttrs resetAttrs)
      c hcr hcells hcol)).trans rfl

/-- Witness for C8: truecolor (10, 20, 30) and a reset on a fresh 4×3
grid. -/
theorem C8_truecolor_roundtrip_witness :
    (((run (TerminalGrid.new 4 3)
        [Event.csi [[38], [2], [10], [20], [30]] [] 'm',
          Event.print 'X']).cells.getD (TerminalGrid.new 4 3).cursor_row
            []).getD (TerminalGrid.new 4 3).cursor_col Cell.default).fg =
      ((10 : ℚ) / 255, (20 : ℚ) / 255, (30 : ℚ) / 255, 1) ∧
    (((run (TerminalGrid.new 4 3) [Event.csi [[0]] [] 'm',
        Event.print 'X']).cells.getD (TerminalGrid.new 4 3).cursor_row
          []).getD (TerminalGrid.new 4 3).cursor_col Cell.default).fg =
      (1, 1, 1, 1) :=
  C8_truecolor_roundtrip (TerminalGrid.new 4 3) 'X' 10 20 30 (by decide)
    (by decide) (by decide) (by decide) (by decide)


end Terminal
